import Mathlib

/-!
# Verification of the figma-to-code translation engine

Shallow embedding of the HTML/CSS translation engine of
`src/mcp-compiler.js` (the `MCPCompiler` class declared at line 1689,
which is the one the claims reference).  JavaScript objects are modelled
as Lean structures with `Option` fields for possibly-absent properties,
JS numbers as exact rationals (`ℚ`), and the mutable per-compile caches
of the class (`imageUrls`, `svgContent`, `videoUrls`, `gifUrls`,
`variableDefs`) as an immutable environment record `Env` that is passed
explicitly.  Transcendental primitives of the JS runtime that have no
computable exact counterpart (`Math.atan2`/`Math.PI` and the regex
engine) are uninterpreted parameters of `Env`; every theorem below that
depends on one of them quantifies over it or fixes the exact value the
JS primitive provably returns on the concrete input used.
-/

namespace FigmaC

/-- JS `Math.round x` = `⌊x + 1/2⌋` (round half toward +infinity). -/
def jsRound (q : ℚ) : ℤ := ⌊q + 1/2⌋

/-- The class helper `round(value)` : `Math.round(value * 10) / 10`
(round to one decimal place, half up). -/
def roundTo1 (q : ℚ) : ℚ := (jsRound (q * 10) : ℚ) / 10

/-- Left-pad a string with `'0'` up to length `k` (JS `padStart(k, '0')`). -/
def padZeros (s : String) (k : Nat) : String :=
  String.join (List.replicate (k - s.length) "0") ++ s

/-- Least exponent `k ≤ 20` such that `q * 10^k` is an integer, if any. -/
def decExp (q : ℚ) : Option Nat :=
  (List.range 21).find? (fun k => (q * (10 : ℚ) ^ k).den == 1)

/-- Rendering of a JS number by string interpolation, for numbers with a
finite decimal expansion: integers print with no decimal point, other
finite decimals print with the minimal number of digits and no trailing
zeros, exactly as JS prints such doubles.  (Rationals with no finite
decimal expansion cannot arise from the arithmetic the engine performs
on decimal inputs; they are given a distinct fallback rendering.) -/
def qToString (q : ℚ) : String :=
  match decExp q with
  | some 0 => toString q.num
  | some k =>
    let n := (q * (10 : ℚ) ^ k).num
    let sign := if n < 0 then "-" else ""
    let m := n.natAbs
    let p := (10 : ℕ) ^ k
    sign ++ (toString (m / p) ++ ("." ++ padZeros (toString (m % p)) k))
  | none => toString q.num ++ ("/" ++ toString q.den)

/-- JS `x.toFixed(4)`: exactly four decimal digits, rounding half up. -/
def toFixed4 (q : ℚ) : String :=
  let n := jsRound (q * 10000)
  let sign := if n < 0 then "-" else ""
  let m := n.natAbs
  sign ++ (toString (m / 10000) ++ ("." ++ padZeros (toString (m % 10000)) 4))

/-- JS `n.toString(16)` for a nonnegative integer (lowercase hex). -/
def natToHex (n : Nat) : String := String.mk (Nat.toDigits 16 n)

/-- JS `n.toString(16)` for an integer. -/
def intToHex (n : ℤ) : String :=
  if n < 0 then "-" ++ natToHex n.natAbs else natToHex n.natAbs

/-- Truthiness of a possibly-absent JS string (`undefined` and `""` are
falsy). -/
def strTruthy : Option String → Bool
  | some s => s ≠ ""
  | none => false

/-- Truthiness of a possibly-absent JS number (`undefined` and `0` are
falsy). -/
def numTruthy : Option ℚ → Bool
  | some q => q ≠ 0
  | none => false

/-- JS `o || null` for a string-valued lookup: an absent or empty value
becomes `null` (here `none`). -/
def orNull : Option String → Option String
  | some s => if s = "" then none else some s
  | none => none

/-- JS string interpolation of a possibly-`undefined` value:
`` `${x}` `` prints the literal text `undefined` when `x` is absent. -/
def strOrUndef : Option String → String
  | some s => s
  | none => "undefined"

/-- Boolean prefix test on character lists. -/
def isPreChars : List Char → List Char → Bool
  | [], _ => true
  | _ :: _, [] => false
  | a :: as, b :: bs => a == b && isPreChars as bs

/-- Substring occurrence test on character lists (`sub` occurs at some
position of `l`). -/
def containsSub : List Char → List Char → Bool
  | [], sub => sub.isEmpty
  | c :: rest, sub => isPreChars sub (c :: rest) || containsSub rest sub

/-- JS `s.includes(sub)`. -/
def jsIncludes (s sub : String) : Bool := containsSub s.data sub.data

/-- JS `'  '.repeat(depth)`. -/
def jsIndent (depth : Nat) : String := String.join (List.replicate depth "  ")

/-- `node.layoutSizingHorizontal || 'FIXED'` (and the vertical analogue). -/
def sizingOr (o : Option String) : String :=
  match o with
  | some s => if s = "" then "FIXED" else s
  | none => "FIXED"

/-- The JS whitespace class `\s` (the members that can occur in layer
names; `String.match(/\s+/g)`). -/
def jsIsWs (c : Char) : Bool :=
  c = ' ' ∨ c = '\t' ∨ c = '\n' ∨ c = '\r' ∨ c = '\x0b' ∨ c = '\x0c' ∨ c = ' '

/-- One pass of `name.replace(/\s+/g, '_')`: each maximal run of
whitespace becomes a single underscore.  The boolean records whether the
previous character was part of a whitespace run. -/
def wsCollapse : Bool → List Char → List Char
  | _, [] => []
  | prevWs, c :: rest =>
    if jsIsWs c then
      (if prevWs then [] else ['_']) ++ wsCollapse true rest
    else c :: wsCollapse false rest

/-- `getClassName(name)`:
`name ? name.toLowerCase().replace(/\s+/g,'_').replace(/[^a-z0-9_]/g,'') : 'unnamed'`. -/
def getClassName (name : Option String) : String :=
  if strTruthy name then
    let lowered := (strOrUndef name).toLower
    let collapsed := wsCollapse false lowered.data
    String.mk (collapsed.filter
      (fun c => ('a' ≤ c ∧ c ≤ 'z') ∨ ('0' ≤ c ∧ c ≤ '9') ∨ c = '_'))
  else "unnamed"

/-! ## Data model (the Figma node JSON the engine consumes) -/

/-- An `{r,g,b,a}` color object; `a` may be absent (the code reads it
with `?? 1`). -/
structure Color where
  r : ℚ
  g : ℚ
  b : ℚ
  a : Option ℚ
deriving DecidableEq, Repr

/-- A 2-D point such as a gradient handle position. -/
structure Vec2 where
  x : ℚ
  y : ℚ
deriving DecidableEq, Repr

/-- One entry of `fill.gradientStops`. -/
structure GradientStop where
  color : Color
  position : ℚ
deriving DecidableEq, Repr

/-- A paint object: an entry of `node.fills` or `node.strokes`. -/
structure Fill where
  type : String
  visible : Option Bool
  color : Option Color
  opacity : Option ℚ
  scaleMode : Option String
  gradientHandlePositions : Option (List Vec2)
  gradientStops : Option (List GradientStop)
deriving DecidableEq, Repr

/-- An entry of `node.effects`.  Shadow effects always carry `offset`,
`radius` and `color` in the Figma API; a blur only reads `radius`. -/
structure Effect where
  type : String
  offset : Vec2
  radius : ℚ
  color : Color
deriving DecidableEq, Repr

/-- `node.absoluteBoundingBox` (only `width`/`height` are read by the
translation functions modelled here). -/
structure BBox where
  width : ℚ
  height : ℚ
deriving DecidableEq, Repr

/-- `node.arcData` of an ELLIPSE. -/
structure ArcData where
  startingAngle : ℚ
  endingAngle : ℚ
  innerRadius : ℚ
deriving DecidableEq, Repr

/-- `node.style` of a TEXT node. -/
structure TextStyle where
  fontFamily : Option String
  fontSize : Option ℚ
  fontWeight : Option ℚ
  italic : Option Bool
  fontPostScriptName : Option String
  fontStyle : Option String
  textDecoration : Option String
  textAlignHorizontal : Option String
  lineHeightPercentFontSize : Option ℚ
  lineHeightPercent : Option ℚ
  lineHeightPx : Option ℚ
  letterSpacing : Option ℚ
  textAutoResize : Option String
deriving DecidableEq, Repr

/-- A `{id: ...}` reference inside `node.boundVariables`. -/
structure VarRef where
  id : Option String
deriving DecidableEq, Repr

/-- A binding value in `node.boundVariables[property]`: either an array
of references or a single reference object. -/
inductive Binding where
  | arr (items : List VarRef)
  | obj (ref : VarRef)
deriving DecidableEq, Repr

/-- `node.boundVariables`, keyed by the three property names the engine
looks up. -/
structure BoundVariables where
  fills : Option Binding
  fontFamily : Option Binding
  fontSize : Option Binding
deriving DecidableEq, Repr

/-- `boundVariables[property]` for a property-name string. -/
def BoundVariables.get (bv : BoundVariables) (property : String) : Option Binding :=
  if property = "fills" then bv.fills
  else if property = "fontFamily" then bv.fontFamily
  else if property = "fontSize" then bv.fontSize
  else none

/-- The non-recursive fields of a Figma node. -/
structure NodeData where
  id : String
  name : Option String
  type : String
  visible : Option Bool
  fills : Option (List Fill)
  strokes : Option (List Fill)
  strokeWeight : Option ℚ
  backgroundColor : Option Color
  absoluteBoundingBox : Option BBox
  layoutMode : Option String
  layoutSizingHorizontal : Option String
  layoutSizingVertical : Option String
  primaryAxisAlignItems : Option String
  counterAxisAlignItems : Option String
  itemSpacing : Option ℚ
  paddingTop : Option ℚ
  paddingRight : Option ℚ
  paddingBottom : Option ℚ
  paddingLeft : Option ℚ
  minWidth : Option ℚ
  maxWidth : Option ℚ
  minHeight : Option ℚ
  maxHeight : Option ℚ
  cornerRadius : Option ℚ
  effects : Option (List Effect)
  style : Option TextStyle
  characters : Option String
  textAutoResize : Option String
  arcData : Option ArcData
  boundVariables : Option BoundVariables
deriving Repr

/-- A Figma node: its scalar data together with its (possibly absent)
`children` array. -/
inductive Node where
  | mk (data : NodeData) (children : Option (List Node))

/-- The scalar fields of a node. -/
def Node.data : Node → NodeData
  | .mk d _ => d

/-- The `children` field of a node. -/
def Node.children : Node → Option (List Node)
  | .mk _ c => c

/-- One entry of `this.variableDefs` (a design-token definition; only
`cssVar` is read by the modelled code). -/
structure VarDef where
  cssVar : Option String
deriving DecidableEq, Repr

/-- The per-compile state of the `MCPCompiler` instance at translation
time, plus the uninterpreted JS runtime primitives.

* `imageUrls`, `svgContent`, `videoUrls`, `gifUrls` are the lookup
  tables pre-populated by the fetch phase (`gifUrls` may be entirely
  unassigned, hence the outer `Option`);
* `variableDefs` is the design-token table, in object-insertion order
  (`fetchVariableDefinitions` always assigns it before translation);
* `atan2deg y x` models `Math.atan2(y, x) * 180 / Math.PI`;
* `piQ` models the double `Math.PI` (a rational number);
* `matchLottieDirect` / `matchLottieApp` model `String.match` against
  the two fixed Lottie URL regexes of `getLottieUrl` (returning the
  matched substring);
* `replaceFirst pat repl s` models `s.replace(/pat/, repl)` (first
  occurrence only, as in `processSvg`). -/
structure Env where
  imageUrls : String → Option String
  svgContent : String → Option String
  videoUrls : String → Option String
  gifUrls : Option (String → Option String)
  variableDefs : List (String × VarDef)
  atan2deg : ℚ → ℚ → ℚ
  piQ : ℚ
  matchLottieDirect : String → Option String
  matchLottieApp : String → Option String
  replaceFirst : String → String → String → String

/-! ## Cache lookups (`getImageUrl` and friends) -/

/-- `getImageUrl(nodeId)` : `this.imageUrls[nodeId] || null`. -/
def getImageUrl (env : Env) (nodeId : String) : Option String :=
  orNull (env.imageUrls nodeId)

/-- `getSvgContent(nodeId)` : `this.svgContent[nodeId] || null`. -/
def getSvgContent (env : Env) (nodeId : String) : Option String :=
  orNull (env.svgContent nodeId)

/-- `getVideoUrl(nodeId)` : `this.videoUrls[nodeId] || null`. -/
def getVideoUrl (env : Env) (nodeId : String) : Option String :=
  orNull (env.videoUrls nodeId)

/-- `getGifUrl(nodeId)` : `this.gifUrls?.[nodeId] || null`. -/
def getGifUrl (env : Env) (nodeId : String) : Option String :=
  orNull (match env.gifUrls with | some g => g nodeId | none => none)

/-! ## Fill, gradient, effect and stroke translation -/

/-- `c.a ?? 1`. -/
def alphaOr1 (c : Color) : ℚ := c.a.getD 1

/-- `rgba(${r}, ${g}, ${b}, ${a})` with channels `Math.round(c * 255)`
and the given alpha (comma-space separators). -/
def rgbaSp (c : Color) (a : ℚ) : String :=
  "rgba(" ++ (toString (jsRound (c.r * 255)) ++ (", " ++
    (toString (jsRound (c.g * 255)) ++ (", " ++
      (toString (jsRound (c.b * 255)) ++ (", " ++ (qToString a ++ ")")))))))

/-- `rgba(${r},${g},${b},${a})` (comma separators without spaces, as in
the ellipse-arc and line translators). -/
def rgbaNs (c : Color) (a : ℚ) : String :=
  "rgba(" ++ (toString (jsRound (c.r * 255)) ++ ("," ++
    (toString (jsRound (c.g * 255)) ++ ("," ++
      (toString (jsRound (c.b * 255)) ++ ("," ++ (qToString a ++ ")")))))))

/-- A gradient stop rendered for linear/radial gradients:
`rgba(...) P%` with `P = Math.round(position * 100)`. -/
def stopPct (st : GradientStop) : String :=
  rgbaSp st.color (alphaOr1 st.color) ++ (" " ++
    (toString (jsRound (st.position * 100)) ++ "%"))

/-- A gradient stop rendered for conic gradients: `rgba(...) Pdeg` with
`P = Math.round(position * 360)`. -/
def stopDeg (st : GradientStop) : String :=
  rgbaSp st.color (alphaOr1 st.color) ++ (" " ++
    (toString (jsRound (st.position * 360)) ++ "deg"))

/-- `fill.gradientStops?.map(f).join(', ')` interpolated into a template
literal: when `gradientStops` is absent, the optional chain yields
`undefined` and the interpolation prints the literal text `undefined`. -/
def stopsJoin (stops : Option (List GradientStop)) (f : GradientStop → String) : String :=
  match stops with
  | some l => String.intercalate ", " (l.map f)
  | none => "undefined"

/-- `applyGradient(fill)` of `src/mcp-compiler.js` (line 2354): returns
the CSS gradient value, or `''` when `gradientHandlePositions` is
absent or has fewer than two entries, or the fill type is not a
recognised gradient.  `env.atan2deg` stands for
`Math.atan2(dy, dx) * 180 / Math.PI`. -/
def applyGradient (env : Env) (fill : Fill) : String :=
  match fill.gradientHandlePositions with
  | none => ""
  | some handles =>
    if handles.length < 2 then ""
    else
      match handles with
      | s :: e :: _ =>
        let mathAngle := env.atan2deg (e.y - s.y) (e.x - s.x)
        let linearAngle := jsRound (90 + mathAngle)
        let stops := stopsJoin fill.gradientStops stopPct
        let angularStops := stopsJoin fill.gradientStops stopDeg
        if fill.type = "GRADIENT_LINEAR" then
          "linear-gradient(" ++ (toString linearAngle ++ ("deg, " ++ (stops ++ ")")))
        else if fill.type = "GRADIENT_RADIAL" then
          "radial-gradient(circle, " ++ (stops ++ ")")
        else if fill.type = "GRADIENT_ANGULAR" then
          let conicAngle := jsRound (mathAngle + 90)
          "conic-gradient(from " ++ (toString conicAngle ++
            ("deg at 50% 50%, " ++ (angularStops ++ ")")))
        else if fill.type = "GRADIENT_DIAMOND" then
          match fill.gradientStops with
          | some (st0 :: rest) =>
            let lastStop := (st0 :: rest).getLast (List.cons_ne_nil st0 rest)
            let c1 := rgbaSp st0.color (alphaOr1 st0.color)
            let c2 := rgbaSp lastStop.color (alphaOr1 lastStop.color)
            let seg := fun (dir : String) =>
              "linear-gradient(to " ++ (dir ++ (", " ++ (c1 ++ (" 0%, " ++ (c2 ++
                (" 50%) " ++ (dir ++ " / 50% 50% no-repeat")))))))
            seg "bottom right" ++ (", " ++ (seg "bottom left" ++ (", " ++
              (seg "top left" ++ (", " ++ seg "top right")))))
          | _ => ""
        else ""
      | _ => ""

/-- `applyEffect(effect)`: one CSS declaration (with a trailing `;`, as
in the source template literals), or `''` for unrecognised types. -/
def applyEffect (e : Effect) : String :=
  if e.type = "DROP_SHADOW" then
    "box-shadow: " ++ (qToString e.offset.x ++ ("px " ++ (qToString e.offset.y ++
      ("px " ++ (qToString e.radius ++ ("px " ++ (rgbaSp e.color (alphaOr1 e.color) ++ ";")))))))
  else if e.type = "INNER_SHADOW" then
    "box-shadow: inset " ++ (qToString e.offset.x ++ ("px " ++ (qToString e.offset.y ++
      ("px " ++ (qToString e.radius ++ ("px " ++ (rgbaSp e.color (alphaOr1 e.color) ++ ";")))))))
  else if e.type = "LAYER_BLUR" then
    "filter: blur(" ++ (qToString e.radius ++ "px);")
  else ""

/-- The declarations `applyFillStyles` pushes for the first visible fill
it found (the cascaded `if`/`else if` on the fill type, line 2878). -/
def fillDecls (env : Env) (nodeId : String) (fill : Fill) : List String :=
  if fill.type = "SOLID" ∧ fill.color.isSome then
    match fill.color with
    | some c =>
      let a := match fill.opacity with | some o => o | none => alphaOr1 c
      ["background-color: " ++ rgbaSp c a]
    | none => []
  else if fill.type = "IMAGE" then
    match getImageUrl env nodeId with
    | some imageUrl =>
      ["background-image: url(\x27" ++ (imageUrl ++ "\x27)"),
       "background-size: cover", "background-position: center"] ++
      (if fill.scaleMode = some "FIT" then
        ["background-size: contain", "background-repeat: no-repeat"]
       else if fill.scaleMode = some "TILE" then
        ["background-size: auto", "background-repeat: repeat"]
       else [])
    | none => []
  else if fill.type ≠ "" ∧ jsIncludes fill.type "GRADIENT" then
    if applyGradient env fill ≠ "" then ["background: " ++ applyGradient env fill] else []
  else []

/-- `applyFillStyles(node, styles)` (line 2874): the declarations pushed
onto `styles`.  Only the first fill with `visible !== false` is
consulted. -/
def applyFillStyles (env : Env) (d : NodeData) : List String :=
  match d.fills with
  | some fills =>
    if fills.length > 0 then
      match fills.find? (fun f => f.visible != some false) with
      | some fill => fillDecls env d.id fill
      | none => []
    else []
  | none => []

/-- `applyStrokeStyles(node, styles)`: the `border` declaration for the
first visible solid stroke, guarded by a truthy `strokeWeight`. -/
def applyStrokeStyles (d : NodeData) : List String :=
  if numTruthy d.strokeWeight then
    match d.strokes with
    | some strokes =>
      if strokes.length > 0 then
        match strokes.find? (fun s => s.visible != some false) with
        | some stroke =>
          if stroke.type = "SOLID" ∧ stroke.color.isSome then
            match stroke.color, d.strokeWeight with
            | some c, some w =>
              let a := match stroke.opacity with | some o => o | none => alphaOr1 c
              ["border: " ++ (qToString (roundTo1 w) ++ ("px solid " ++ rgbaSp c a))]
            | _, _ => []
          else []
        | none => []
      else []
    | none => []
  else []

/-! ## `translateAutoLayoutToCSS` (line 2437) -/

/-- The horizontal branch of the sizing logic shared by
`translateAutoLayoutToCSS` and `translateRectangleStyle`. -/
def widthSizing (sizingH : String) (bbox : Option BBox) : List String :=
  if sizingH = "FILL" then ["flex: 1", "align-self: stretch"]
  else if sizingH = "HUG" then []
  else match bbox with
    | some bb => ["width: " ++ (qToString (roundTo1 bb.width) ++ "px")]
    | none => []

/-- The vertical branch of the shared sizing logic. -/
def heightSizing (sizingV : String) (bbox : Option BBox) : List String :=
  if sizingV = "FILL" then ["flex-grow: 1"]
  else if sizingV = "HUG" then []
  else match bbox with
    | some bb => ["height: " ++ (qToString (roundTo1 bb.height) ++ "px")]
    | none => []

/-- The width/height declarations from the shared sizing logic
(`layoutSizingHorizontal`/`Vertical`, defaulting to `'FIXED'`). -/
def sizingStyles (d : NodeData) : List String :=
  widthSizing (sizingOr d.layoutSizingHorizontal) d.absoluteBoundingBox ++
  heightSizing (sizingOr d.layoutSizingVertical) d.absoluteBoundingBox

/-- One min constraint: `if (node.minWidth !== undefined && node.minWidth > 0)
styles.push(...)` (and the `minHeight` analogue). -/
def minDecl (prop : String) (o : Option ℚ) : List String :=
  match o with
  | some v => if v > 0 then [prop ++ (qToString (roundTo1 v) ++ "px")] else []
  | none => []

/-- One max constraint: `if (node.maxWidth !== undefined && node.maxWidth < 10000)
styles.push(...)` (and the `maxHeight` analogue). -/
def maxDecl (prop : String) (o : Option ℚ) : List String :=
  match o with
  | some v => if v < 10000 then [prop ++ (qToString (roundTo1 v) ++ "px")] else []
  | none => []

/-- The four min/max constraint declarations (line 2469): a min is
emitted when present and `> 0`, a max when present and `< 10000`. -/
def minmaxStyles (d : NodeData) : List String :=
  minDecl "min-width: " d.minWidth ++ maxDecl "max-width: " d.maxWidth ++
  minDecl "min-height: " d.minHeight ++ maxDecl "max-height: " d.maxHeight

/-- Truthiness of `node.fills?.length`. -/
def fillsNonempty : Option (List Fill) → Bool
  | some l => decide (l.length > 0)
  | none => false

/-- `if (!node.fills?.length && node.backgroundColor) { ...push
background-color... }` (line 2476). -/
def bgFallbackStyles (d : NodeData) : List String :=
  if fillsNonempty d.fills then []
  else
    match d.backgroundColor with
    | some c => ["background-color: " ++ rgbaSp c (alphaOr1 c)]
    | none => []

/-- The `justify-content` enum map. -/
def alignMapJustify (s : String) : Option String :=
  if s = "MIN" then some "flex-start" else if s = "CENTER" then some "center"
  else if s = "MAX" then some "flex-end"
  else if s = "SPACE_BETWEEN" then some "space-between" else none

/-- The `align-items` enum map. -/
def alignMapItems (s : String) : Option String :=
  if s = "MIN" then some "flex-start" else if s = "CENTER" then some "center"
  else if s = "MAX" then some "flex-end"
  else if s = "BASELINE" then some "baseline" else none

/-- `node.children && node.children.length === 1`. -/
def childLen1 : Option (List Node) → Bool
  | some cs => cs.length == 1
  | none => false

/-- The Auto-Layout container declarations (`if (node.layoutMode)` block
of `translateAutoLayoutToCSS`, line 2485). -/
def layoutStyles (d : NodeData) (children : Option (List Node)) : List String :=
  if strTruthy d.layoutMode then
    ["display: flex",
     "flex-direction: " ++ (if d.layoutMode = some "VERTICAL" then "column" else "row")] ++
    (if strTruthy d.primaryAxisAlignItems then
      let jc0 := strOrUndef d.primaryAxisAlignItems
      let jc := if jc0 = "SPACE_BETWEEN" ∧ childLen1 children then "CENTER" else jc0
      ["justify-content: " ++ (alignMapJustify jc).getD "flex-start"]
     else []) ++
    (if strTruthy d.counterAxisAlignItems then
      ["align-items: " ++ (alignMapItems (strOrUndef d.counterAxisAlignItems)).getD "stretch"]
     else []) ++
    (match d.itemSpacing with
     | some g => ["gap: " ++ (qToString g ++ "px")]
     | none => []) ++
    (let pt := d.paddingTop.getD 0
     let pr := d.paddingRight.getD 0
     let pb := d.paddingBottom.getD 0
     let pl := d.paddingLeft.getD 0
     if pt ≠ 0 ∨ pr ≠ 0 ∨ pb ≠ 0 ∨ pl ≠ 0 then
       ["padding: " ++ (qToString pt ++ ("px " ++ (qToString pr ++ ("px " ++
         (qToString pb ++ ("px " ++ (qToString pl ++ "px")))))))]
     else [])
  else []

/-- The effect declarations (`node.effects.map(applyEffect)` filtered by
truthiness). -/
def effectStyles (d : NodeData) : List String :=
  match d.effects with
  | some effects =>
    if effects.length > 0 then (effects.map applyEffect).filter (fun s => s ≠ "") else []
  | none => []

/-- The `styles` array built by `translateAutoLayoutToCSS (node)`, in
push order. -/
def translateAutoLayoutStyles (env : Env) (n : Node) : List String :=
  sizingStyles n.data ++ minmaxStyles n.data ++ applyFillStyles env n.data ++
  bgFallbackStyles n.data ++ layoutStyles n.data n.children ++ effectStyles n.data

/-- `translateAutoLayoutToCSS(node)` : `styles.join('; ')`. -/
def translateAutoLayoutToCSS (env : Env) (n : Node) : String :=
  String.intercalate "; " (translateAutoLayoutStyles env n)

/-! ## The remaining per-type style translators -/

/-- `if (node.cornerRadius) push border-radius`. -/
def cornerRadiusStyles (d : NodeData) : List String :=
  if numTruthy d.cornerRadius then
    ["border-radius: " ++ (qToString (roundTo1 (d.cornerRadius.getD 0)) ++ "px")]
  else []

/-- `translateRectangleStyle(node, _)` (line 2921). -/
def translateRectangleStyle (env : Env) (d : NodeData) : String :=
  String.intercalate "; " (sizingStyles d ++ minmaxStyles d ++ applyFillStyles env d ++
    cornerRadiusStyles d ++ applyStrokeStyles d ++ effectStyles d)

/-- `translateEllipseStyle(node, _)` (line 2750).  `env.piQ` is the
double `Math.PI`. -/
def translateEllipseStyle (env : Env) (d : NodeData) : String :=
  let sizePart := match d.absoluteBoundingBox with
    | some bb => ["width: " ++ (qToString (roundTo1 bb.width) ++ "px"),
                  "height: " ++ (qToString (roundTo1 bb.height) ++ "px")]
    | none => []
  let arcPart := match d.arcData with
    | some arc =>
      if arc.startingAngle ≠ 0 ∨ arc.endingAngle ≠ env.piQ * 2 then
        let startDeg := roundTo1 ((arc.startingAngle * 180) / env.piQ)
        let endDeg := roundTo1 ((arc.endingAngle * 180) / env.piQ)
        let sweepDeg := endDeg - startDeg
        match d.fills with
        | some fills =>
          if fills.length > 0 then
            match fills.find? (fun f => f.visible != some false && f.type == "SOLID") with
            | some fill =>
              match fill.color with
              | some c =>
                let a := match fill.opacity with | some o => o | none => 1
                ["background: conic-gradient(from " ++ (qToString startDeg ++ ("deg, " ++
                  (rgbaNs c a ++ (" " ++ (qToString sweepDeg ++ ("deg, transparent " ++
                    (qToString sweepDeg ++ "deg)")))))))]
              | none => []
            | none => []
          else []
        | none => []
      else applyFillStyles env d
    | none => applyFillStyles env d
  String.intercalate "; " (sizePart ++ ["border-radius: 50%"] ++ arcPart ++ applyStrokeStyles d)

/-- `translateLineStyle(node, _)` (line 2797). -/
def translateLineStyle (d : NodeData) : String :=
  let sizePart := match d.absoluteBoundingBox with
    | some bb => ["width: " ++ (qToString (roundTo1 bb.width) ++ "px"),
                  "height: " ++ (qToString (roundTo1 bb.height) ++ "px")]
    | none => []
  let strokePart := match d.strokes with
    | some strokes =>
      if strokes.length > 0 then
        match strokes.find? (fun s => s.visible != some false) with
        | some stroke =>
          if stroke.type = "SOLID" ∧ stroke.color.isSome then
            match stroke.color with
            | some c =>
              let a := match stroke.opacity with | some o => o | none => 1
              let weight := match d.strokeWeight with
                | some w => if w = 0 then 1 else w
                | none => (1 : ℚ)
              ["border-bottom: " ++ (qToString (roundTo1 weight) ++ ("px solid " ++ rgbaNs c a))]
            | none => []
          else []
        | none => []
      else []
    | none => []
  String.intercalate "; " (sizePart ++ strokePart)

/-- `translateVectorStyle(node, _)` (line 2822). -/
def translateVectorStyle (d : NodeData) : String :=
  String.intercalate "; " ((match d.absoluteBoundingBox with
    | some bb => ["width: " ++ (qToString (roundTo1 bb.width) ++ "px"),
                  "height: " ++ (qToString (roundTo1 bb.height) ++ "px")]
    | none => []) ++ ["object-fit: contain"])

/-- `translateVideoStyle(node, _)` (line 2837). -/
def translateVideoStyle (d : NodeData) : String :=
  let bbox := d.absoluteBoundingBox
  let sizingH := sizingOr d.layoutSizingHorizontal
  let sizingV := sizingOr d.layoutSizingVertical
  String.intercalate "; "
    ((if sizingH = "FILL" then ["flex: 1", "width: 100%"]
      else if sizingH = "HUG" then []
      else match bbox with
        | some bb => ["width: " ++ (qToString (roundTo1 bb.width) ++ "px")]
        | none => []) ++
     (if sizingV = "FILL" then ["flex-grow: 1", "height: 100%"]
      else if sizingV = "HUG" then []
      else match bbox with
        | some bb => ["height: " ++ (qToString (roundTo1 bb.height) ++ "px")]
        | none => []) ++
     ["object-fit: cover"] ++ cornerRadiusStyles d)

/-! ## Design-token bindings (`getBoundVariableValue`, line 1972) -/

/-- The fixed `propertyToVarMap` of `getVariableCSSFromId`. -/
def propertyToVarMap (property : String) : Option String :=
  if property = "fills" then some "color/neutral/text-default"
  else if property = "fontFamily" then some "font-family"
  else if property = "fontSize" then some "font-size/10"
  else if property = "fontStyle" then some "font-weight/bold"
  else none

/-- `this.variableDefs[varName]` (object-key lookup). -/
def lookupVarDef (defs : List (String × VarDef)) (key : String) : Option VarDef :=
  (defs.find? (fun p => p.1 == key)).map Prod.snd

/-- The `for (const [name, def] of Object.entries(this.variableDefs))`
scan of `getVariableCSSFromId`, returning the first match.  (The
`if (this.variableDefs)` guard is always true at translation time,
since `fetchVariableDefinitions` assigns `this.variableDefs = {}`
before any translation runs.) -/
def varScan (env : Env) (property fallbackValue : String) : String :=
  match env.variableDefs.findSome? (fun p =>
    if strTruthy p.2.cssVar then
      if (property = "fills" ∧ jsIncludes p.1 "color")
         ∨ (property = "fontFamily" ∧ jsIncludes p.1 "font-family")
         ∨ (property = "fontSize" ∧ jsIncludes p.1 "font-size") then
        some ("var(" ++ (strOrUndef p.2.cssVar ++ (", " ++ (fallbackValue ++ ")"))))
      else none
    else none) with
  | some s => s
  | none => fallbackValue

/-- `getVariableCSSFromId(varId, property, fallbackValue)`.  (`varId` is
accepted but never read by the source body.) -/
def getVariableCSSFromId (env : Env) (_varId property fallbackValue : String) : String :=
  match propertyToVarMap property with
  | some vn =>
    if vn ≠ "" then
      match lookupVarDef env.variableDefs vn with
      | some varDef => "var(" ++ (strOrUndef varDef.cssVar ++ (", " ++ (fallbackValue ++ ")")))
      | none => varScan env property fallbackValue
    else varScan env property fallbackValue
  | none => varScan env property fallbackValue

/-- `getBoundVariableValue(node, property, fallbackValue)`. -/
def getBoundVariableValue (env : Env) (d : NodeData) (property fallbackValue : String) : String :=
  match d.boundVariables with
  | none => fallbackValue
  | some bv =>
    match bv.get property with
    | none => fallbackValue
    | some binding =>
      match binding with
      | .arr items =>
        match items with
        | first :: _ =>
          if strTruthy first.id then
            getVariableCSSFromId env (strOrUndef first.id) property fallbackValue
          else fallbackValue
        | [] => fallbackValue
      | .obj ref =>
        if strTruthy ref.id then
          getVariableCSSFromId env (strOrUndef ref.id) property fallbackValue
        else fallbackValue

/-! ## `translateTextStyle` (line 2977) and `getTextTag` (line 3098) -/

/-- The `text-align` enum map. -/
def textAlignMap (s : String) : Option String :=
  if s = "LEFT" then some "left" else if s = "CENTER" then some "center"
  else if s = "RIGHT" then some "right"
  else if s = "JUSTIFIED" then some "justify" else none

/-- `translateTextStyle(node, _)`. -/
def translateTextStyle (env : Env) (d : NodeData) : String :=
  let styleTar := match d.style with | some st => st.textAutoResize | none => none
  let tar := if strTruthy styleTar then styleTar else d.textAutoResize
  let sizingH := d.layoutSizingHorizontal
  let sizingV := d.layoutSizingVertical
  let bbox := d.absoluteBoundingBox
  let widthPart :=
    if sizingH = some "FILL" then ["flex: 1", "align-self: stretch"]
    else if sizingH = some "HUG" ∨ tar = some "WIDTH_AND_HEIGHT" then []
    else match bbox with
      | some bb => ["width: " ++ (qToString (roundTo1 bb.width) ++ "px")]
      | none => []
  let heightPart :=
    if sizingV = some "FILL" then ["flex-grow: 1"]
    else if sizingV = some "HUG" ∨ tar = some "WIDTH_AND_HEIGHT" ∨ tar = some "HEIGHT" then []
    else match bbox with
      | some bb => ["height: " ++ (qToString (roundTo1 bb.height) ++ "px")]
      | none => []
  let fontPart := match d.style with
    | none => []
    | some st =>
      (if strTruthy st.fontFamily then
        let fallback := "\x27" ++ (strOrUndef st.fontFamily ++ "\x27, sans-serif")
        ["font-family: " ++ getBoundVariableValue env d "fontFamily" fallback]
       else []) ++
      (if numTruthy st.fontSize then
        let fallback := qToString (roundTo1 (st.fontSize.getD 0)) ++ "px"
        ["font-size: " ++ getBoundVariableValue env d "fontSize" fallback]
       else []) ++
      (if numTruthy st.fontWeight then
        ["font-weight: " ++ qToString (st.fontWeight.getD 0)]
       else []) ++
      (if st.italic = some true
          ∨ (strTruthy st.fontPostScriptName ∧
             jsIncludes (strOrUndef st.fontPostScriptName).toLower "italic")
          ∨ (strTruthy st.fontStyle ∧ st.fontStyle = some "ITALIC") then
        ["font-style: italic"]
       else []) ++
      (if st.textDecoration = some "UNDERLINE" then ["text-decoration: underline"] else []) ++
      (if strTruthy st.textAlignHorizontal then
        ["text-align: " ++ (textAlignMap (strOrUndef st.textAlignHorizontal)).getD "left"]
       else []) ++
      (if numTruthy st.lineHeightPercentFontSize then
        ["line-height: " ++ (qToString (st.lineHeightPercentFontSize.getD 0) ++ "%")]
       else if numTruthy st.lineHeightPercent then
        ["line-height: " ++ (qToString (st.lineHeightPercent.getD 0) ++ "%")]
       else if numTruthy st.lineHeightPx then
        ["line-height: " ++ (qToString (st.lineHeightPx.getD 0) ++ "px")]
       else []) ++
      (if numTruthy st.letterSpacing then
        ["letter-spacing: " ++ (qToString (st.letterSpacing.getD 0) ++ "px")]
       else [])
  let colorPart := match d.fills with
    | some fills =>
      if fills.length > 0 then
        match fills.find? (fun f => f.type == "SOLID" && f.visible != some false) with
        | some fill =>
          match fill.color with
          | some c =>
            let r := jsRound (c.r * 255)
            let g := jsRound (c.g * 255)
            let b := jsRound (c.b * 255)
            let a := match fill.opacity with | some o => o | none => (1 : ℚ)
            let fallbackColor := if a = 1 then
                ("#" ++ (padZeros (intToHex r) 2 ++ (padZeros (intToHex g) 2 ++
                  padZeros (intToHex b) 2))).map Char.toUpper
              else rgbaSp c a
            ["color: " ++ getBoundVariableValue env d "fills" fallbackColor]
          | none => []
        | none => []
      else []
    | none => []
  String.intercalate "; " (["margin: 0"] ++ widthPart ++ heightPart ++ minmaxStyles d ++
    fontPart ++ colorPart)

/-- `getTextTag(node)` (line 3098).  Note the JS `||` defaults: a
*falsy* `fontSize`/`fontWeight` (absent or `0`) falls back to `16`/`400`. -/
def getTextTag (d : NodeData) : String :=
  match d.style with
  | none => "p"
  | some st =>
    let fontSize : ℚ := match st.fontSize with | some v => if v = 0 then 16 else v | none => 16
    let fontWeight : ℚ := match st.fontWeight with | some v => if v = 0 then 400 else v | none => 400
    if fontSize ≥ 48 ∨ (fontSize ≥ 32 ∧ fontWeight ≥ 600) then "h1"
    else if fontSize ≥ 32 ∨ (fontSize ≥ 24 ∧ fontWeight ≥ 600) then "h2"
    else if fontSize ≥ 24 ∨ (fontSize ≥ 18 ∧ fontWeight ≥ 600) then "h3"
    else "p"

/-- The tag-inference rule exactly as the specification states it: a
pure cascade over `fontSize` and `fontWeight`. -/
def specTagRule (fontSize fontWeight : ℚ) : String :=
  if fontSize ≥ 48 ∨ (fontSize ≥ 32 ∧ fontWeight ≥ 600) then "h1"
  else if fontSize ≥ 32 ∨ (fontSize ≥ 24 ∧ fontWeight ≥ 600) then "h2"
  else if fontSize ≥ 24 ∨ (fontSize ≥ 18 ∧ fontWeight ≥ 600) then "h3"
  else "p"

/-- The claim's reading of tag inference: determined solely by
`fontSize` and `fontWeight`, defaulting to `16` and `400` only when the
field is *absent*. -/
def specTextTag (d : NodeData) : String :=
  let fs := match d.style with | some st => st.fontSize.getD 16 | none => (16 : ℚ)
  let fw := match d.style with | some st => st.fontWeight.getD 400 | none => (400 : ℚ)
  specTagRule fs fw

/-! ## Media classification helpers -/

/-- JS string interpolation of a possibly-`null` value: `` `${x}` ``
prints the literal text `null` when `x` is `null`. -/
def strOrNull : Option String → String
  | some s => s
  | none => "null"

/-- `getLottieUrl(node)`: matches the node name against the direct
Lottie URL regex, then the app URL regex (both uninterpreted in
`Env`); `null` when the name is falsy or neither matches. -/
def getLottieUrl (env : Env) (d : NodeData) : Option String :=
  if strTruthy d.name then
    match env.matchLottieDirect (strOrUndef d.name) with
    | some m => some m
    | none =>
      match env.matchLottieApp (strOrUndef d.name) with
      | some m => some m
      | none => none
  else none

/-- `hasLottieFill(node)` : `getLottieUrl(node) !== null`. -/
def hasLottieFill (env : Env) (d : NodeData) : Bool :=
  (getLottieUrl env d).isSome

/-- `isDirectLottieUrl(url)` :
`url && (url.endsWith('.json') || url.endsWith('.lottie'))`. -/
def isDirectLottieUrl : Option String → Bool
  | some u => u ≠ "" && (u.endsWith ".json" || u.endsWith ".lottie")
  | none => false

/-- `hasVideoFill(node)`: an explicit VIDEO fill, or a pre-resolved
video URL for this node id. -/
def hasVideoFill (env : Env) (d : NodeData) : Bool :=
  (match d.fills with
   | some fills => fills.any (fun f => f.type == "VIDEO" && f.visible != some false)
   | none => false) || (env.videoUrls d.id).isSome

/-- `hasGifFill(node)` : `this.gifUrls?.[node.id] !== undefined`. -/
def hasGifFill (env : Env) (d : NodeData) : Bool :=
  match env.gifUrls with
  | some g => (g d.id).isSome
  | none => false

/-- A JS string-or-`null`-or-`undefined` value (`processSvg` leaves its
attribute variables `undefined` when no branch assigns them, and that
is observably different from `null`). -/
inductive JsStrVal where
  | undef
  | nullv
  | strv (s : String)
deriving DecidableEq, Repr

/-- Interpolation of a `JsStrVal` into a template literal. -/
def JsStrVal.render : JsStrVal → String
  | .undef => "undefined"
  | .nullv => "null"
  | .strv s => s

/-- `processSvg(svgCode, className, nodeId, node)` (line 2293):
attribute substitution on the raw SVG text via the uninterpreted
first-occurrence regex-replace primitive. -/
def processSvg (env : Env) (svgCode className nodeId : String) (d : NodeData) : String :=
  let bbox := d.absoluteBoundingBox
  let sizingH := sizingOr d.layoutSizingHorizontal
  let sizingV := sizingOr d.layoutSizingVertical
  let widthAttr : JsStrVal :=
    if sizingH = "FILL" then .strv "100%"
    else if sizingH = "HUG" then .nullv
    else match bbox with
      | some bb => .strv (qToString (roundTo1 bb.width))
      | none => .undef
  let heightAttr : JsStrVal :=
    if sizingV = "FILL" then .strv "100%"
    else if sizingV = "HUG" then .nullv
    else match bbox with
      | some bb => .strv (qToString (roundTo1 bb.height))
      | none => .undef
  let styleAttr := (if sizingH = "FILL" then "flex: 1; " else "") ++
                   (if sizingV = "FILL" then "flex-grow: 1; " else "")
  let processed := env.replaceFirst "<svg"
    ("<svg class=\"" ++ className ++ "\" data-figma-id=\"" ++ nodeId ++ "\"") svgCode
  let processed := if widthAttr ≠ JsStrVal.nullv then
      env.replaceFirst "width=\"[^\"]*\"" ("width=\"" ++ widthAttr.render ++ "\"") processed
    else processed
  let processed := if heightAttr ≠ JsStrVal.nullv then
      env.replaceFirst "height=\"[^\"]*\"" ("height=\"" ++ heightAttr.render ++ "\"") processed
    else processed
  let processed := if styleAttr ≠ "" then
      env.replaceFirst "<svg([^>]*)>" ("<svg$1 style=\"" ++ styleAttr.trim ++ "\">") processed
    else processed
  processed

/-! ## `translateNodeToHTML` (line 2526) -/

mutual

/-- `translateNodeToHTML(node, depth, parentHasAutoLayout)` for a
non-null node: the `visible === false` early return, then the switch on
`node.type` (factored into `translateVisibleNode`). -/
def translateNodeCore (env : Env) : Node → Nat → Bool → String
  | Node.mk data children, depth, parentHasAutoLayout =>
    if data.visible = some false then ""
    else translateVisibleNode env data children depth parentHasAutoLayout

/-- The switch on `node.type` (the body of `translateNodeToHTML` after
the visibility guard).  (`console.log` side effects do not affect the
returned string and are dropped.) -/
def translateVisibleNode (env : Env) (data : NodeData) (children : Option (List Node))
    (depth : Nat) (parentHasAutoLayout : Bool) : String :=
      let indent := jsIndent depth
      let className := getClassName data.name
      let nodeHasAutoLayout := strTruthy data.layoutMode
      if data.type = "FRAME" then
        if hasLottieFill env data then
          let lottieUrl := getLottieUrl env data
          let lottieStyle := translateVideoStyle data
          if isDirectLottieUrl lottieUrl then
            indent ++ "<dotlottie-wc class=\"" ++ className ++ "\" data-figma-id=\"" ++
              data.id ++ "\" src=\"" ++ strOrNull lottieUrl ++ "\" speed=\"1\" style=\"" ++
              lottieStyle ++ "\" loop autoplay></dotlottie-wc>"
          else
            indent ++ "<div class=\"" ++ className ++ " lottie-placeholder\" data-figma-id=\"" ++
              data.id ++ "\" data-lottie-app-url=\"" ++ strOrNull lottieUrl ++ "\" style=\"" ++
              lottieStyle ++
              "; background: linear-gradient(135deg, #667eea 0%, #764ba2 100%); display: flex; align-items: center; justify-content: center; position: relative;\">\n" ++
              indent ++ "  <div style=\"text-align: center; color: white; font-size: 12px; padding: 8px;\">\n" ++
              indent ++ "    <div style=\"font-size: 24px; margin-bottom: 4px;\">🎬</div>\n" ++
              indent ++ "    <div>Lottie Animation</div>\n" ++
              indent ++ "    <div style=\"font-size: 10px; opacity: 0.8;\">Use direct .json/.lottie URL</div>\n" ++
              indent ++ "  </div>\n" ++
              indent ++ "</div>"
        else
          let frameStyle := translateAutoLayoutToCSS env (Node.mk data children)
          let childrenStr := translateKids env children (depth + 1) nodeHasAutoLayout
          indent ++ "<div class=\"" ++ className ++ "\" data-figma-id=\"" ++ data.id ++
            "\" style=\"" ++ frameStyle ++ "\">\n" ++ childrenStr ++ "\n" ++ indent ++ "</div>"
      else if data.type = "RECTANGLE" then
        if hasLottieFill env data then
          let lottieUrl := getLottieUrl env data
          let lottieStyle := translateVideoStyle data
          if isDirectLottieUrl lottieUrl then
            indent ++ "<dotlottie-wc class=\"" ++ className ++ "\" data-figma-id=\"" ++
              data.id ++ "\" src=\"" ++ strOrNull lottieUrl ++ "\" speed=\"1\" style=\"" ++
              lottieStyle ++ "\" loop autoplay></dotlottie-wc>"
          else
            indent ++ "<div class=\"" ++ className ++ " lottie-placeholder\" data-figma-id=\"" ++
              data.id ++ "\" data-lottie-app-url=\"" ++ strOrNull lottieUrl ++ "\" style=\"" ++
              lottieStyle ++
              "; background: linear-gradient(135deg, #667eea 0%, #764ba2 100%); display: flex; align-items: center; justify-content: center;\">\n" ++
              indent ++ "  <div style=\"text-align: center; color: white; font-size: 12px; padding: 8px;\">\n" ++
              indent ++ "    <div style=\"font-size: 24px; margin-bottom: 4px;\">🎬</div>\n" ++
              indent ++ "    <div>Lottie</div>\n" ++
              indent ++ "  </div>\n" ++
              indent ++ "</div>"
        else if hasGifFill env data then
          let gifUrl := getGifUrl env data.id
          let gifStyle := translateVideoStyle data
          indent ++ "<div class=\"" ++ className ++ " gif-container\" data-figma-id=\"" ++
            data.id ++ "\" data-gif-name=\"" ++ strOrUndef data.name ++ "\" style=\"" ++
            gifStyle ++ "; background-image: url(\x27" ++ strOrNull gifUrl ++
            "\x27); background-size: cover; background-position: center; position: relative;\">\n" ++
            indent ++ "  <div style=\"position: absolute; bottom: 4px; right: 4px; padding: 2px 6px; background: rgba(0,0,0,0.6); border-radius: 4px; font-size: 10px; color: white;\">GIF</div>\n" ++
            indent ++ "</div>"
        else if hasVideoFill env data then
          let videoUrl := getVideoUrl env data.id
          let videoStyle := translateVideoStyle data
          indent ++ "<div class=\"" ++ className ++ " video-container\" data-figma-id=\"" ++
            data.id ++ "\" data-video-name=\"" ++ strOrUndef data.name ++ "\" style=\"" ++
            videoStyle ++ "; background-image: url(\x27" ++ strOrNull videoUrl ++
            "\x27); background-size: cover; background-position: center; position: relative;\">\n" ++
            indent ++ "  <div style=\"position: absolute; top: 50%; left: 50%; transform: translate(-50%, -50%); width: 48px; height: 48px; background: rgba(0,0,0,0.6); border-radius: 50%; display: flex; align-items: center; justify-content: center;\">\n" ++
            indent ++ "    <svg width=\"24\" height=\"24\" viewBox=\"0 0 24 24\" fill=\"white\"><path d=\"M8 5v14l11-7z\"/></svg>\n" ++
            indent ++ "  </div>\n" ++
            indent ++ "</div>"
        else
          let hasImageFill := match data.fills with
            | some fills => fills.any (fun f => f.type == "IMAGE" && f.visible != some false)
            | none => false
          let imageUrl := getImageUrl env data.id
          if hasImageFill && imageUrl.isSome then
            let imgStyles :=
              (if sizingOr data.layoutSizingHorizontal = "FILL" then ["width: 100%"]
               else match data.absoluteBoundingBox with
                 | some bb => ["width: " ++ qToString (roundTo1 bb.width) ++ "px"]
                 | none => []) ++
              (if sizingOr data.layoutSizingVertical = "FILL" then ["height: 100%"]
               else match data.absoluteBoundingBox with
                 | some bb => ["height: " ++ qToString (roundTo1 bb.height) ++ "px"]
                 | none => []) ++
              ["object-fit: cover", "display: block"] ++ cornerRadiusStyles data
            indent ++ "<img class=\"" ++ className ++ "\" data-figma-id=\"" ++ data.id ++
              "\" src=\"" ++ strOrNull imageUrl ++ "\" alt=\"" ++ strOrUndef data.name ++
              "\" style=\"" ++ String.intercalate "; " imgStyles ++ "\" />"
          else
            let rectStyle := translateRectangleStyle env data
            indent ++ "<div class=\"" ++ className ++ "\" data-figma-id=\"" ++ data.id ++
              "\" style=\"" ++ rectStyle ++ "\"></div>"
      else if data.type = "TEXT" then
        let textStyle := translateTextStyle env data
        let textTag := getTextTag data
        indent ++ "<" ++ textTag ++ " class=\"" ++ className ++ "\" data-figma-id=\"" ++
          data.id ++ "\" style=\"" ++ textStyle ++ "\">" ++ data.characters.getD "" ++
          "</" ++ textTag ++ ">"
      else if data.type = "GROUP" then
        let groupChildren := translateKids env children (depth + 1) parentHasAutoLayout
        indent ++ "<div class=\"" ++ className ++ "\" data-figma-id=\"" ++ data.id ++ "\">\n" ++
          groupChildren ++ "\n" ++ indent ++ "</div>"
      else if data.type = "ELLIPSE" then
        indent ++ "<div class=\"" ++ className ++ "\" data-figma-id=\"" ++ data.id ++
          "\" style=\"" ++ translateEllipseStyle env data ++ "\"></div>"
      else if data.type = "LINE" then
        indent ++ "<div class=\"" ++ className ++ "\" data-figma-id=\"" ++ data.id ++
          "\" style=\"" ++ translateLineStyle data ++ "\"></div>"
      else if data.type = "VECTOR" ∨ data.type = "BOOLEAN_OPERATION" ∨
              data.type = "STAR" ∨ data.type = "REGULAR_POLYGON" then
        match getSvgContent env data.id with
        | some svgCode => indent ++ processSvg env svgCode className data.id data
        | none =>
          let vectorStyle := translateVectorStyle data
          match getImageUrl env data.id with
          | some vectorUrl =>
            indent ++ "<img class=\"" ++ className ++ "\" data-figma-id=\"" ++ data.id ++
              "\" src=\"" ++ vectorUrl ++ "\" alt=\"\" style=\"" ++ vectorStyle ++ "\" />"
          | none =>
            indent ++ "<div class=\"" ++ className ++ "\" data-figma-id=\"" ++ data.id ++
              "\" style=\"" ++ vectorStyle ++ "\"></div>"
      else if data.type = "INSTANCE" ∨ data.type = "COMPONENT" then
        let instanceHasImageFill := match data.fills with
          | some fills => fills.any (fun f => f.type == "IMAGE" && f.visible != some false)
          | none => false
        let instanceImageUrl := getImageUrl env data.id
        if instanceHasImageFill && instanceImageUrl.isSome then
          let imgStyles :=
            (if sizingOr data.layoutSizingHorizontal = "FILL" then ["width: 100%"]
             else match data.absoluteBoundingBox with
               | some bb => ["width: " ++ qToString (roundTo1 bb.width) ++ "px", "max-width: 100%"]
               | none => []) ++
            (match data.absoluteBoundingBox with
             | some bb =>
               if bb.width ≠ 0 ∧ bb.height ≠ 0 then
                 ["aspect-ratio: " ++ toFixed4 (bb.width / bb.height)]
               else []
             | none => []) ++
            (if sizingOr data.layoutSizingVertical = "FILL" then ["height: 100%"]
             else ["height: auto"]) ++
            ["object-fit: cover", "display: block"] ++ cornerRadiusStyles data
          indent ++ "<img class=\"" ++ className ++ "\" data-figma-id=\"" ++ data.id ++
            "\" src=\"" ++ strOrNull instanceImageUrl ++ "\" alt=\"" ++ strOrUndef data.name ++
            "\" style=\"" ++ String.intercalate "; " imgStyles ++ "\" />"
        else
          let instanceStyle := translateAutoLayoutToCSS env (Node.mk data children)
          let fallbackHtml :=
            match getImageUrl env data.id with
            | some instanceUrl2 =>
              indent ++ "<img class=\"" ++ className ++ "\" data-figma-id=\"" ++ data.id ++
                "\" src=\"" ++ instanceUrl2 ++ "\" alt=\"" ++ strOrUndef data.name ++
                "\" style=\"" ++ instanceStyle ++ "\" />"
            | none =>
              indent ++ "<div class=\"" ++ className ++ "\" data-figma-id=\"" ++ data.id ++
                "\" style=\"" ++ instanceStyle ++ "\"></div>"
          match children with
          | some cs =>
            if cs.length > 0 then
              let instanceChildren := translateKids env (some cs) (depth + 1) nodeHasAutoLayout
              indent ++ "<div class=\"" ++ className ++ "\" data-figma-id=\"" ++ data.id ++
                "\" style=\"" ++ instanceStyle ++ "\">\n" ++ instanceChildren ++ "\n" ++
                indent ++ "</div>"
            else fallbackHtml
          | none => fallbackHtml
      else
        let defaultChildren := translateKids env children (depth + 1) parentHasAutoLayout
        indent ++ "<div class=\"" ++ className ++ "\" data-figma-id=\"" ++ data.id ++ "\">\n" ++
          defaultChildren ++ "\n" ++ indent ++ "</div>"

/-- `node.children ? node.children.map(child => translateNodeToHTML(child,
depth + 1, flag)).join('\n') : ''`. -/
def translateKids (env : Env) : Option (List Node) → Nat → Bool → String
  | some cs, depth, flag => String.intercalate "\n" (translateKidsList env cs depth flag)
  | none, _, _ => ""

/-- The mapped list of child translations. -/
def translateKidsList (env : Env) : List Node → Nat → Bool → List String
  | [], _, _ => []
  | c :: rest, depth, flag =>
    translateNodeCore env c depth flag :: translateKidsList env rest depth flag

end

/-- `translateNodeToHTML(node, depth, parentHasAutoLayout)` including
the `if (!node) return ''` null guard. -/
def translateNodeToHTML (env : Env) (node : Option Node) (depth : Nat)
    (parentHasAutoLayout : Bool) : String :=
  match node with
  | some n => translateNodeCore env n depth parentHasAutoLayout
  | none => ""

/-! ## Concrete instances for witnesses

A minimal environment and node for instantiating the theorems.  The
uninterpreted primitives are fixed to values consistent with the JS
runtime on the concrete inputs used below: `atan2deg 0 1 = 0` is the
exact value of `Math.atan2(0, 1) * 180 / Math.PI` (both the `atan2` and
the multiplication are exact at this point even in double precision). -/

/-- An environment with empty caches and no token table. -/
def baseEnv : Env where
  imageUrls := fun _ => none
  svgContent := fun _ => none
  videoUrls := fun _ => none
  gifUrls := none
  variableDefs := []
  atan2deg := fun _ _ => 0
  piQ := 314159265358979 / 100000000000000
  matchLottieDirect := fun _ => none
  matchLottieApp := fun _ => none
  replaceFirst := fun _ _ s => s

/-- A node-data record with every optional field absent. -/
def baseData : NodeData where
  id := "1:1"
  name := none
  type := "FRAME"
  visible := none
  fills := none
  strokes := none
  strokeWeight := none
  backgroundColor := none
  absoluteBoundingBox := none
  layoutMode := none
  layoutSizingHorizontal := none
  layoutSizingVertical := none
  primaryAxisAlignItems := none
  counterAxisAlignItems := none
  itemSpacing := none
  paddingTop := none
  paddingRight := none
  paddingBottom := none
  paddingLeft := none
  minWidth := none
  maxWidth := none
  minHeight := none
  maxHeight := none
  cornerRadius := none
  effects := none
  style := none
  characters := none
  textAutoResize := none
  arcData := none
  boundVariables := none

/-- An empty text style record. -/
def baseStyle : TextStyle where
  fontFamily := none
  fontSize := none
  fontWeight := none
  italic := none
  fontPostScriptName := none
  fontStyle := none
  textDecoration := none
  textAlignHorizontal := none
  lineHeightPercentFontSize := none
  lineHeightPercent := none
  lineHeightPx := none
  letterSpacing := none
  textAutoResize := none

/-- A fill record with every optional field absent. -/
def baseFill : Fill where
  type := "SOLID"
  visible := none
  color := none
  opacity := none
  scaleMode := none
  gradientHandlePositions := none
  gradientStops := none

/-! ## String-prefix machinery

The claims speak about which *declarations* appear in a style list
("no width declaration for that axis", "no background declaration").
We identify a declaration by its property prefix, and prove that each
block of pushes only produces strings with known literal heads. -/

/-- The string `s` starts with the literal `p`. -/
def HasPre (p s : String) : Prop := isPreChars p.data s.data = true

theorem strDataAppend (a b : String) : (a ++ b).data = a.data ++ b.data := by
  cases a; cases b; rfl

theorem isPre_refl (l : List Char) : isPreChars l l = true := by
  induction l with
  | nil => rfl
  | cons a as ih => simp [isPreChars, ih]

theorem isPre_append_left {p l : List Char} (r : List Char) (h : isPreChars p l = true) :
    isPreChars p (l ++ r) = true := by
  induction p generalizing l with
  | nil => simp [isPreChars]
  | cons a as ih =>
    cases l with
    | nil => simp [isPreChars] at h
    | cons b bs =>
      simp only [List.cons_append, isPreChars, Bool.and_eq_true, beq_iff_eq] at h ⊢
      exact ⟨h.1, ih h.2⟩

/-- Two prefixes of the same list are comparable. -/
theorem isPre_comparable {s p h : List Char} (hp : isPreChars p s = true) (hh : isPreChars h s = true) :
    isPreChars p h = true ∨ isPreChars h p = true := by
  induction s generalizing p h with
  | nil =>
    cases p with
    | nil => left; rfl
    | cons a as => simp [isPreChars] at hp
  | cons c cs ih =>
    cases p with
    | nil => left; rfl
    | cons a as =>
      cases h with
      | nil => right; rfl
      | cons b bs =>
        simp only [isPreChars, Bool.and_eq_true, beq_iff_eq] at hp hh ⊢
        obtain ⟨rfl, hps⟩ := hp
        obtain ⟨rfl, hhs⟩ := hh
        rcases ih hps hhs with e | e
        · exact Or.inl ⟨rfl, e⟩
        · exact Or.inr ⟨rfl, e⟩

/-- A string headed by `h` cannot also be headed by an incomparable `p`. -/
theorem not_hasPre_of_incompat {h s : String} (p : String)
    (hh : HasPre h s) (h1 : isPreChars p.data h.data = false)
    (h2 : isPreChars h.data p.data = false) : ¬ HasPre p s := by
  intro hp
  rcases isPre_comparable hp hh with e | e
  · rw [h1] at e; exact Bool.false_ne_true e
  · rw [h2] at e; exact Bool.false_ne_true e

/-- A string headed by `h` cannot equal a literal that `h` does not
head. -/
theorem ne_of_hasPre {h s : String} (lit : String)
    (hh : HasPre h s) (hn : isPreChars h.data lit.data = false) : s ≠ lit := by
  intro e
  subst e
  rw [hh] at hn
  exact absurd hn (by simp)

/-- Literal-headed concatenation has the literal's prefixes. -/
theorem hasPre_head {p lit : String} (rest : String)
    (h : isPreChars p.data lit.data = true) : HasPre p (lit ++ rest) := by
  unfold HasPre
  rw [strDataAppend]
  exact isPre_append_left _ h

/-- Every member of `l` is headed by a member of `hs`. -/
def Headed (hs : List String) (l : List String) : Prop :=
  ∀ s ∈ l, ∃ h ∈ hs, HasPre h s

theorem Headed.append {hs : List String} {l₁ l₂ : List String}
    (h₁ : Headed hs l₁) (h₂ : Headed hs l₂) : Headed hs (l₁ ++ l₂) := by
  intro s hsl
  rcases List.mem_append.mp hsl with h | h
  · exact h₁ s h
  · exact h₂ s h

theorem Headed.nil {hs : List String} : Headed hs [] := by
  intro s hsl
  exact absurd hsl (List.not_mem_nil s)

theorem Headed.mono {hs hs' : List String} {l : List String}
    (sub : ∀ h ∈ hs, h ∈ hs') (h : Headed hs l) : Headed hs' l := by
  intro s hsl
  obtain ⟨hd, hmem, hp⟩ := h s hsl
  exact ⟨hd, sub hd hmem, hp⟩

/-- If every possible head of `l` is incomparable with `p`, no member of
`l` is headed by `p`. -/
theorem Headed.no_pre {hs : List String} {l : List String} (p : String)
    (h : Headed hs l)
    (hinc : ∀ hd ∈ hs, isPreChars p.data hd.data = false ∧ isPreChars hd.data p.data = false) :
    ∀ s ∈ l, ¬ HasPre p s := by
  intro s hsl
  obtain ⟨hd, hmem, hp⟩ := h s hsl
  exact not_hasPre_of_incompat p hp (hinc hd hmem).1 (hinc hd hmem).2

/-- If no possible head of `l` heads the literal `lit`, then `lit` is
not a member of `l`. -/
theorem Headed.not_mem {hs : List String} {l : List String} (lit : String)
    (h : Headed hs l)
    (hn : ∀ hd ∈ hs, isPreChars hd.data lit.data = false) : lit ∉ l := by
  intro hmem
  obtain ⟨hd, hdmem, hp⟩ := h lit hmem
  exact ne_of_hasPre lit hp (hn hd hdmem) rfl

@[simp] theorem Node.data_mk (d : NodeData) (ch : Option (List Node)) :
    (Node.mk d ch).data = d := rfl

@[simp] theorem Node.children_mk (d : NodeData) (ch : Option (List Node)) :
    (Node.mk d ch).children = ch := rfl

/-! ## The possible heads of each block of style pushes -/

instance (p s : String) : Decidable (HasPre p s) :=
  inferInstanceAs (Decidable (isPreChars p.data s.data = true))

theorem headed_minDecl {hs : List String} (prop : String) (o : Option ℚ)
    (hmem : prop ∈ hs) : Headed hs (minDecl prop o) := by
  intro s hsl
  unfold minDecl at hsl
  repeat' split at hsl
  all_goals
    first
    | exact absurd hsl (List.not_mem_nil s)
    | (fin_cases hsl; exact ⟨prop, hmem, hasPre_head _ (isPre_refl _)⟩)

theorem headed_maxDecl {hs : List String} (prop : String) (o : Option ℚ)
    (hmem : prop ∈ hs) : Headed hs (maxDecl prop o) := by
  intro s hsl
  unfold maxDecl at hsl
  repeat' split at hsl
  all_goals
    first
    | exact absurd hsl (List.not_mem_nil s)
    | (fin_cases hsl; exact ⟨prop, hmem, hasPre_head _ (isPre_refl _)⟩)

/-- The heads of the min/max constraint block. -/
def mmHeads : List String := ["min-width: ", "max-width: ", "min-height: ", "max-height: "]

theorem headed_minmax (d : NodeData) : Headed mmHeads (minmaxStyles d) := by
  unfold minmaxStyles
  exact Headed.append (Headed.append (Headed.append
    (headed_minDecl _ _ (by simp [mmHeads]))
    (headed_maxDecl _ _ (by simp [mmHeads])))
    (headed_minDecl _ _ (by simp [mmHeads])))
    (headed_maxDecl _ _ (by simp [mmHeads]))

theorem headed_fillDecls (env : Env) (nodeId : String) (fill : Fill) :
    Headed ["background"] (fillDecls env nodeId fill) := by
  intro s hsl
  refine ⟨"background", List.mem_singleton.mpr rfl, ?_⟩
  unfold fillDecls at hsl
  repeat' split at hsl
  all_goals
    first
    | exact absurd hsl (List.not_mem_nil s)
    | (fin_cases hsl <;> first
        | decide
        | exact hasPre_head _ (by decide))

theorem headed_fill (env : Env) (d : NodeData) :
    Headed ["background"] (applyFillStyles env d) := by
  intro s hsl
  unfold applyFillStyles at hsl
  repeat' split at hsl
  all_goals
    first
    | exact absurd hsl (List.not_mem_nil s)
    | exact headed_fillDecls env d.id _ s hsl

theorem headed_bgFallback (d : NodeData) :
    Headed ["background-color: "] (bgFallbackStyles d) := by
  intro s hsl
  unfold bgFallbackStyles at hsl
  repeat' split at hsl
  all_goals
    first
    | exact absurd hsl (List.not_mem_nil s)
    | (fin_cases hsl
       exact ⟨"background-color: ", List.mem_singleton.mpr rfl, hasPre_head _ (isPre_refl _)⟩)

/-- The heads of the Auto-Layout container block. -/
def lytHeads : List String :=
  ["display: flex", "flex-direction: ", "justify-content: ", "align-items: ",
   "gap: ", "padding: "]

theorem headed_layout (d : NodeData) (ch : Option (List Node)) :
    Headed lytHeads (layoutStyles d ch) := by
  intro s hsl
  unfold layoutStyles at hsl
  split at hsl
  · simp only [List.append_assoc, List.mem_append] at hsl
    rcases hsl with h | h | h | h | h <;>
      (repeat' split at h) <;>
        first
        | exact absurd h (List.not_mem_nil s)
        | (fin_cases h <;>
            first
            | exact ⟨"display: flex", by simp [lytHeads], isPre_refl _⟩
            | exact ⟨"flex-direction: ", by simp [lytHeads], hasPre_head _ (isPre_refl _)⟩
            | exact ⟨"justify-content: ", by simp [lytHeads], hasPre_head _ (isPre_refl _)⟩
            | exact ⟨"align-items: ", by simp [lytHeads], hasPre_head _ (isPre_refl _)⟩
            | exact ⟨"gap: ", by simp [lytHeads], hasPre_head _ (isPre_refl _)⟩
            | exact ⟨"padding: ", by simp [lytHeads], hasPre_head _ (isPre_refl _)⟩)
  · exact absurd hsl (List.not_mem_nil s)

/-- The heads of the effect block. -/
def effHeads : List String := ["box-shadow: ", "filter: blur("]

theorem headed_applyEffect (e : Effect) (h : applyEffect e ≠ "") :
    ∃ hd ∈ effHeads, HasPre hd (applyEffect e) := by
  unfold applyEffect at h ⊢
  split_ifs at h ⊢
  · exact ⟨"box-shadow: ", by simp [effHeads], hasPre_head _ (isPre_refl _)⟩
  · exact ⟨"box-shadow: ", by simp [effHeads], hasPre_head _ (by decide)⟩
  · exact ⟨"filter: blur(", by simp [effHeads], hasPre_head _ (isPre_refl _)⟩
  · exact absurd rfl h

theorem headed_effects (d : NodeData) : Headed effHeads (effectStyles d) := by
  intro s hsl
  unfold effectStyles at hsl
  repeat' split at hsl
  all_goals
    first
    | exact absurd hsl (List.not_mem_nil s)
    | (rw [List.mem_filter] at hsl
       obtain ⟨hmap, hne⟩ := hsl
       obtain ⟨e, _, rfl⟩ := List.mem_map.mp hmap
       exact headed_applyEffect e (by simpa using hne))

/-- The heads of the shared sizing block. -/
def sizHeads : List String :=
  ["flex: 1", "align-self: stretch", "width: ", "flex-grow: 1", "height: "]

/-- The heads of the horizontal sizing branch. -/
def hSizHeads : List String := ["flex: 1", "align-self: stretch", "width: "]

/-- The heads of the vertical sizing branch. -/
def vSizHeads : List String := ["flex-grow: 1", "height: "]

theorem headed_widthSizing (sizingH : String) (bbox : Option BBox) :
    Headed hSizHeads (widthSizing sizingH bbox) := by
  intro s hsl
  unfold widthSizing at hsl
  repeat' split at hsl
  all_goals
    first
    | exact absurd hsl (List.not_mem_nil s)
    | (fin_cases hsl <;>
        first
        | exact ⟨"flex: 1", by simp [hSizHeads], isPre_refl _⟩
        | exact ⟨"align-self: stretch", by simp [hSizHeads], isPre_refl _⟩
        | exact ⟨"width: ", by simp [hSizHeads], hasPre_head _ (isPre_refl _)⟩)

theorem headed_heightSizing (sizingV : String) (bbox : Option BBox) :
    Headed vSizHeads (heightSizing sizingV bbox) := by
  intro s hsl
  unfold heightSizing at hsl
  repeat' split at hsl
  all_goals
    first
    | exact absurd hsl (List.not_mem_nil s)
    | (fin_cases hsl <;>
        first
        | exact ⟨"flex-grow: 1", by simp [vSizHeads], isPre_refl _⟩
        | exact ⟨"height: ", by simp [vSizHeads], hasPre_head _ (isPre_refl _)⟩)

theorem headed_sizing (d : NodeData) : Headed sizHeads (sizingStyles d) := by
  unfold sizingStyles
  exact Headed.append
    ((headed_widthSizing _ _).mono (by intro h hh; fin_cases hh <;> simp [sizHeads]))
    ((headed_heightSizing _ _).mono (by intro h hh; fin_cases hh <;> simp [sizHeads]))

/-- Membership in the `translateAutoLayoutToCSS` declaration list splits
into the six push blocks. -/
theorem mem_autoLayoutStyles (env : Env) (d : NodeData) (ch : Option (List Node))
    (s : String) :
    s ∈ translateAutoLayoutStyles env (Node.mk d ch) ↔
      s ∈ sizingStyles d ∨ s ∈ minmaxStyles d ∨ s ∈ applyFillStyles env d ∨
      s ∈ bgFallbackStyles d ∨ s ∈ layoutStyles d ch ∨ s ∈ effectStyles d := by
  simp [translateAutoLayoutStyles, List.mem_append, or_assoc]

/-! ## Claim C1 — pruning of invisible nodes -/

/-- C1: for every node with `visible === false`, `translateNodeToHTML`
returns the empty string, so no markup element is emitted for that node
or any of its descendants, regardless of the descendants' own `visible`
values; the check is the first statement of the function, before any
recursion into children. -/
theorem hidden_node_translates_to_empty (env : Env) (n : Node) (depth : Nat)
    (pAL : Bool) (h : n.data.visible = some false) :
    translateNodeToHTML env (some n) depth pAL = "" := by
  obtain ⟨d, ch⟩ := n
  simp only [Node.data_mk] at h
  unfold translateNodeToHTML translateNodeCore
  rw [if_pos h]

/-- Witness for C1 at a concrete hidden node (with a visible child). -/
theorem hidden_node_translates_to_empty_witness :
    translateNodeToHTML baseEnv
      (some (Node.mk { baseData with visible := some false }
        (some [Node.mk baseData none]))) 3 true = "" :=
  hidden_node_translates_to_empty baseEnv _ 3 true rfl

/-! ## Claim C9 — determinism -/

/-- C9: translation is deterministic.  All mutable state the translator
reads (the pre-populated image/SVG/video/GIF tables, the token table and
the runtime primitives) is captured by `Env`; two calls with the same
table contents and the same arguments return character-identical
strings. -/
theorem translate_deterministic (env₁ env₂ : Env) (node : Option Node)
    (depth : Nat) (pAL : Bool)
    (h₁ : env₁.imageUrls = env₂.imageUrls)
    (h₂ : env₁.svgContent = env₂.svgContent)
    (h₃ : env₁.videoUrls = env₂.videoUrls)
    (h₄ : env₁.gifUrls = env₂.gifUrls)
    (h₅ : env₁.variableDefs = env₂.variableDefs)
    (h₆ : env₁.atan2deg = env₂.atan2deg)
    (h₇ : env₁.piQ = env₂.piQ)
    (h₈ : env₁.matchLottieDirect = env₂.matchLottieDirect)
    (h₉ : env₁.matchLottieApp = env₂.matchLottieApp)
    (h₀ : env₁.replaceFirst = env₂.replaceFirst) :
    translateNodeToHTML env₁ node depth pAL = translateNodeToHTML env₂ node depth pAL := by
  have : env₁ = env₂ := by
    cases env₁
    cases env₂
    congr 1 <;>
      first
      | exact h₁ | exact h₂ | exact h₃ | exact h₄ | exact h₅
      | exact h₆ | exact h₇ | exact h₈ | exact h₉ | exact h₀
  rw [this]

/-- Witness for C9: two calls on the same concrete environment and node
agree. -/
theorem translate_deterministic_witness :
    translateNodeToHTML baseEnv (some (Node.mk baseData none)) 0 false =
      translateNodeToHTML baseEnv (some (Node.mk baseData none)) 0 false :=
  translate_deterministic baseEnv baseEnv _ 0 false rfl rfl rfl rfl rfl rfl rfl rfl rfl rfl

/-! ## Claim C5 — malformed gradients -/

/-- The malformed gradient of C5: a linear gradient with two handle
positions but no `gradientStops`. -/
def malformedGradFill : Fill :=
  { baseFill with
    type := "GRADIENT_LINEAR"
    gradientHandlePositions := some [⟨0, 0⟩, ⟨1, 0⟩] }

/-- C5 (code bug): a GRADIENT_LINEAR fill with two handle positions but
missing `gradientStops` is NOT dropped.  `applyGradient` guards only the
handle count; the `undefined` optional chain is interpolated into the
template literal, the resulting string is truthy, and `applyFillStyles`
emits a `background` declaration containing the literal text
`undefined` — invalid CSS, contradicting the omit-on-malformed rule the
guard was written to enforce.  (`baseEnv.atan2deg 0 1 = 0` is the exact
value `Math.atan2(0, 1) * 180 / Math.PI` returns.) -/
theorem malformed_gradient_emits_undefined :
    applyFillStyles baseEnv { baseData with fills := some [malformedGradFill] } =
      ["background: linear-gradient(90deg, undefined)"] := by
  have hr : jsRound ((90 : ℚ)) = 90 := by
    unfold jsRound
    norm_num
  have hb : ((none : Option Bool) != some false) = true := by decide
  have hj : jsIncludes "GRADIENT_LINEAR" "GRADIENT" = true := by decide
  have hg : applyGradient baseEnv malformedGradFill = "linear-gradient(90deg, undefined)" := by
    simp only [applyGradient, malformedGradFill, baseFill, baseEnv, stopsJoin]
    norm_num [hr]
    decide
  simp only [malformedGradFill, baseFill] at hg
  simp [applyFillStyles, fillDecls, baseData, List.find?, hb, hg, hj, malformedGradFill, baseFill]

/-! ## Claim C6 — text tag inference -/

/-- C6: the output tag of a TEXT node is determined solely by `fontSize`
and `fontWeight` with defaults `16`/`400` (the JS `||` default also
fires on an explicit `0`, but a zero value selects the same tag as the
default, so the code agrees extensionally with the spec's rule); in
particular `fontSize=48` gives `h1`, `fontSize=30, weight=700` gives
`h2`, and `fontSize=16, weight=400` gives `p`. -/
theorem text_tag_inference :
    (∀ d : NodeData, getTextTag d = specTextTag d) ∧
    getTextTag { baseData with style := some { baseStyle with fontSize := some 48 } } = "h1" ∧
    getTextTag { baseData with
      style := some { baseStyle with fontSize := some 30, fontWeight := some 700 } } = "h2" ∧
    getTextTag { baseData with
      style := some { baseStyle with fontSize := some 16, fontWeight := some 400 } } = "p" := by
  refine ⟨?_, by norm_num [getTextTag, baseData, baseStyle],
    by norm_num [getTextTag, baseData, baseStyle],
    by norm_num [getTextTag, baseData, baseStyle]⟩
  intro d
  rcases hst : d.style with _ | st
  · simp only [getTextTag, specTextTag, specTagRule, hst]
    norm_num
  · rcases hfs : st.fontSize with _ | fs <;> rcases hfw : st.fontWeight with _ | fw <;>
      simp only [getTextTag, specTextTag, specTagRule, hst, hfs, hfw,
        Option.getD_some, Option.getD_none]
    · by_cases hfw0 : fw = 0
      · subst hfw0
        norm_num
      · simp only [if_neg hfw0]
    · by_cases hfs0 : fs = 0
      · subst hfs0
        norm_num
      · simp only [if_neg hfs0]
    · by_cases hfs0 : fs = 0 <;> by_cases hfw0 : fw = 0
      · subst hfs0; subst hfw0
        norm_num
      · subst hfs0
        simp only [if_neg hfw0]
        norm_num
      · subst hfw0
        simp only [if_neg hfs0]
        norm_num
      · simp only [if_neg hfs0, if_neg hfw0]

/-! ## Claim C3 — SPACE_BETWEEN tie-break -/

/-- C3: for an Auto-Layout container with
`primaryAxisAlignItems = 'SPACE_BETWEEN'`, exactly one child yields
`justify-content: center`, two or more children yield
`justify-content: space-between`. -/
theorem space_between_tie_break (env : Env) (d : NodeData) (ch : List Node)
    (hlm : strTruthy d.layoutMode = true)
    (hsb : d.primaryAxisAlignItems = some "SPACE_BETWEEN") :
    (ch.length = 1 →
      "justify-content: center" ∈ translateAutoLayoutStyles env (Node.mk d (some ch))) ∧
    (2 ≤ ch.length →
      "justify-content: space-between" ∈
        translateAutoLayoutStyles env (Node.mk d (some ch))) := by
  constructor
  · intro h1
    rw [mem_autoLayoutStyles]
    refine Or.inr (Or.inr (Or.inr (Or.inr (Or.inl ?_))))
    unfold layoutStyles
    rw [if_pos hlm]
    simp [hsb, strOrUndef, childLen1, h1, alignMapJustify, strTruthy]
  · intro h2
    have hc : childLen1 (some ch) = false := by
      simp only [childLen1, beq_eq_false_iff_ne, ne_eq]
      omega
    rw [mem_autoLayoutStyles]
    refine Or.inr (Or.inr (Or.inr (Or.inr (Or.inl ?_))))
    unfold layoutStyles
    rw [if_pos hlm]
    simp [hsb, strOrUndef, hc, alignMapJustify, strTruthy]

/-- Witness for C3: one child centers, two children space-between. -/
theorem space_between_tie_break_witness :
    "justify-content: center" ∈ translateAutoLayoutStyles baseEnv
      (Node.mk { baseData with
        layoutMode := some "HORIZONTAL"
        primaryAxisAlignItems := some "SPACE_BETWEEN" }
        (some [Node.mk baseData none])) ∧
    "justify-content: space-between" ∈ translateAutoLayoutStyles baseEnv
      (Node.mk { baseData with
        layoutMode := some "HORIZONTAL"
        primaryAxisAlignItems := some "SPACE_BETWEEN" }
        (some [Node.mk baseData none, Node.mk baseData none])) :=
  ⟨(space_between_tie_break baseEnv _ _ (by decide) rfl).1 rfl,
   (space_between_tie_break baseEnv _ _ (by decide) rfl).2 (by norm_num)⟩

/-! ## Claim C4 — linear gradient angle -/

/-- C4: for a GRADIENT_LINEAR fill with at least two handle positions,
the emitted angle is `round(90 + atan2(end.y-start.y, end.x-start.x) ·
180/π)` degrees, `start`/`end` being the first two handles
(`env.atan2deg` is the uninterpreted `atan2(·,·)·180/π`); and whenever
the runtime primitive satisfies `atan2deg 0 1 = 0` — the exact value of
`Math.atan2(0,1)*180/Math.PI` — handles `(0,0)→(1,0)` yield
`linear-gradient(90deg, ...)`. -/
theorem gradient_linear_angle (env : Env) (fill : Fill) (p q : Vec2) (rest : List Vec2)
    (hty : fill.type = "GRADIENT_LINEAR")
    (hh : fill.gradientHandlePositions = some (p :: q :: rest)) :
    applyGradient env fill =
      "linear-gradient(" ++ (toString (jsRound (90 + env.atan2deg (q.y - p.y) (q.x - p.x))) ++
        ("deg, " ++ (stopsJoin fill.gradientStops stopPct ++ ")"))) ∧
    (env.atan2deg 0 1 = 0 →
      applyGradient env { fill with gradientHandlePositions := some [⟨0, 0⟩, ⟨1, 0⟩] } =
        "linear-gradient(90deg, " ++ (stopsJoin fill.gradientStops stopPct ++ ")")) := by
  constructor
  · unfold applyGradient
    rw [hh]
    simp [hty]
  · intro h0
    have hr : jsRound ((90 : ℚ)) = 90 := by
      unfold jsRound
      norm_num
    unfold applyGradient
    simp only [List.length_cons, List.length_nil, Nat.lt_irrefl, if_false]
    simp [hty, h0, hr]
    rw [← String.append_assoc, ← String.append_assoc]
    congr 1

/-- Witness for C4 at concrete handles `(0,0)→(1,0)` in `baseEnv`. -/
theorem gradient_linear_angle_witness :
    applyGradient baseEnv
      { baseFill with
        type := "GRADIENT_LINEAR"
        gradientHandlePositions := some [⟨0, 0⟩, ⟨1, 0⟩] } =
      "linear-gradient(90deg, " ++
        (stopsJoin ({ baseFill with type := "GRADIENT_LINEAR" } : Fill).gradientStops
          stopPct ++ ")") :=
  (gradient_linear_angle baseEnv
    { baseFill with
      type := "GRADIENT_LINEAR"
      gradientHandlePositions := some [⟨0, 0⟩, ⟨1, 0⟩] }
    ⟨0, 0⟩ ⟨1, 0⟩ [] rfl rfl).2 rfl

/-! ## Claim C10 — only the first visible fill matters -/

theorem find?_visible_skip (pre : List Fill) (f : Fill) (rest : List Fill)
    (hpre : ∀ g ∈ pre, g.visible = some false) (hf : f.visible ≠ some false) :
    (pre ++ f :: rest).find? (fun x => x.visible != some false) = some f := by
  induction pre with
  | nil =>
    simp only [List.nil_append]
    exact List.find?_cons_of_pos _ (by simp [hf])
  | cons g gs ih =>
    rw [List.cons_append, List.find?_cons_of_neg]
    · exact ih (fun x hx => hpre x (by simp [hx]))
    · simp [hpre g (by simp)]

/-- C10: `applyFillStyles` consults only the first fill whose `visible`
is not `false`: invisible fills before it and arbitrary fills after it
never contribute, and when that first visible fill yields no CSS (a
SOLID fill without a color, an IMAGE fill with no cached URL, or an
unrecognised type) no background declaration is emitted at all. -/
theorem first_visible_fill_only (env : Env) (d : NodeData) (pre rest : List Fill) (f : Fill)
    (hpre : ∀ g ∈ pre, g.visible = some false) (hf : f.visible ≠ some false) :
    (applyFillStyles env { d with fills := some (pre ++ f :: rest) } =
      applyFillStyles env { d with fills := some [f] }) ∧
    (f.type = "SOLID" → f.color = none →
      applyFillStyles env { d with fills := some (pre ++ f :: rest) } = []) ∧
    (f.type = "IMAGE" → getImageUrl env d.id = none →
      applyFillStyles env { d with fills := some (pre ++ f :: rest) } = []) ∧
    (f.type ≠ "SOLID" → f.type ≠ "IMAGE" → jsIncludes f.type "GRADIENT" = false →
      applyFillStyles env { d with fills := some (pre ++ f :: rest) } = []) := by
  have hfind := find?_visible_skip pre f rest hpre hf
  have happ : applyFillStyles env { d with fills := some (pre ++ f :: rest) } =
      fillDecls env d.id f := by
    unfold applyFillStyles
    have hlen : 0 < (pre ++ f :: rest).length := by
      simp
    simp [hfind, hlen]
  have hsingle : applyFillStyles env { d with fills := some [f] } = fillDecls env d.id f := by
    unfold applyFillStyles
    have h1 : List.find? (fun x => x.visible != some false) [f] = some f :=
      List.find?_cons_of_pos _ (by simp [hf])
    simp [h1]
  refine ⟨by rw [happ, hsingle], ?_, ?_, ?_⟩
  · intro hty hcol
    have hjs : jsIncludes "SOLID" "GRADIENT" = false := by decide
    rw [happ]
    unfold fillDecls
    simp [hty, hcol, hjs]
  · intro hty hurl
    rw [happ]
    unfold fillDecls
    simp [hty, hurl]
  · intro h1 h2 h3
    rw [happ]
    unfold fillDecls
    simp [h1, h2, h3]

/-- Witness for C10: an invisible fill, then a visible SOLID fill
without a color, then a visible colored fill — nothing is emitted. -/
theorem first_visible_fill_only_witness :
    applyFillStyles baseEnv
      { baseData with
        fills := some ([{ baseFill with visible := some false }] ++
          baseFill :: [{ baseFill with color := some ⟨0, 0, 1, none⟩ }]) } = [] :=
  (first_visible_fill_only baseEnv baseData [{ baseFill with visible := some false }]
    [{ baseFill with color := some ⟨0, 0, 1, none⟩ }] baseFill
    (by
      intro g hg
      rw [List.mem_singleton] at hg
      subst hg
      rfl)
    (by decide)).2.1 rfl rfl

/-! ## Claim C7 — fills take precedence over backgroundColor -/

theorem TAL_decomp_bg (env : Env) (d : NodeData) (ch : Option (List Node)) (b : Option Color) :
    translateAutoLayoutStyles env (Node.mk { d with backgroundColor := b } ch) =
      sizingStyles d ++ minmaxStyles d ++ applyFillStyles env d ++
      bgFallbackStyles { d with backgroundColor := b } ++ layoutStyles d ch ++
      effectStyles d := by
  cases d
  rfl

theorem bgFallback_of_fills (d : NodeData) (b : Option Color)
    (hf : fillsNonempty d.fills = true) :
    bgFallbackStyles { d with backgroundColor := b } = [] := by
  unfold bgFallbackStyles
  rw [if_pos (show fillsNonempty ({ d with backgroundColor := b } : NodeData).fills = true from hf)]

/-- C7: when `fills` is non-empty it alone determines the background —
the output is unchanged under any value of the legacy `backgroundColor`
field; and `backgroundColor` produces its `background-color` declaration
exactly when `fills` is empty or absent (and the field is present). -/
theorem fills_precede_background_color (env : Env) (d : NodeData)
    (ch : Option (List Node)) (b : Option Color) :
    (fillsNonempty d.fills = true →
      translateAutoLayoutStyles env (Node.mk { d with backgroundColor := b } ch) =
        translateAutoLayoutStyles env (Node.mk { d with backgroundColor := none } ch)) ∧
    (fillsNonempty d.fills = false → ∀ c, b = some c →
      ("background-color: " ++ rgbaSp c (alphaOr1 c)) ∈
        translateAutoLayoutStyles env (Node.mk { d with backgroundColor := b } ch)) := by
  constructor
  · intro hf
    rw [TAL_decomp_bg, TAL_decomp_bg, bgFallback_of_fills d b hf,
      bgFallback_of_fills d none hf]
  · intro hf c hc
    subst hc
    rw [TAL_decomp_bg]
    simp only [List.append_assoc, List.mem_append]
    refine Or.inr (Or.inr (Or.inr (Or.inl ?_)))
    unfold bgFallbackStyles
    rw [if_neg (by
      rw [show fillsNonempty ({ d with backgroundColor := some c } : NodeData).fills =
        fillsNonempty d.fills from rfl, hf]
      simp)]
    simp

/-- Witness for C7: with no fills and a red `backgroundColor`, the
fallback declaration is emitted. -/
theorem fills_precede_background_color_witness :
    ("background-color: " ++ rgbaSp ⟨1, 0, 0, none⟩ (alphaOr1 ⟨1, 0, 0, none⟩)) ∈
      translateAutoLayoutStyles baseEnv
        (Node.mk { baseData with backgroundColor := some ⟨1, 0, 0, none⟩ } none) :=
  (fills_precede_background_color baseEnv baseData none (some ⟨1, 0, 0, none⟩)).2 rfl _ rfl

/-! ## Evaluation lemmas for `qToString` -/

theorem qToString_intCase (q : ℚ) (n : ℤ) (hq : q = (n : ℚ)) : qToString q = toString n := by
  subst hq
  unfold qToString decExp
  rw [show List.range 21 = 0 :: (List.range 21).tail from by decide]
  rw [List.find?_cons_of_pos _ (by simp)]
  simp

theorem qToString_tenthCase (n : ℤ) (hnd : ¬ ((10 : ℤ) ∣ n)) :
    qToString ((n : ℚ) / 10) = (if n < 0 then "-" else "") ++
      (toString (n.natAbs / 10) ++ ("." ++ padZeros (toString (n.natAbs % 10)) 1)) := by
  have hden0 : ((n : ℚ) / 10).den ≠ 1 := by
    intro h
    have h2 : ((((n : ℚ) / 10).num : ℚ)) = (n : ℚ) / 10 := (Rat.den_eq_one_iff _).mp h
    have h3 : ((((n : ℚ) / 10).num * 10 : ℤ) : ℚ) = (n : ℚ) := by
      push_cast
      rw [h2]
      ring
    have h4 : ((n : ℚ) / 10).num * 10 = n := by exact_mod_cast h3
    exact hnd ⟨((n : ℚ) / 10).num, by omega⟩
  have hden1 : (((n : ℚ) / 10) * 10 ^ 1).den = 1 := by
    have : ((n : ℚ) / 10) * 10 ^ 1 = (n : ℚ) := by ring
    rw [this]
    exact Rat.den_intCast n
  have hnum1 : (((n : ℚ) / 10) * 10 ^ 1).num = n := by
    have : ((n : ℚ) / 10) * 10 ^ 1 = (n : ℚ) := by ring
    rw [this]
    exact Rat.num_intCast n
  unfold qToString decExp
  rw [show List.range 21 = 0 :: 1 :: ((List.range 21).tail).tail from by decide]
  rw [List.find?_cons_of_neg _ (by simpa using hden0), List.find?_cons_of_pos _ (by simp [hden1])]
  simp only [hnum1]
  rfl

/-! ## Claim C8 — min/max constraint sentinels -/

theorem mem_minDecl {prop : String} {o : Option ℚ} {s : String} (h : s ∈ minDecl prop o) :
    ∃ v, o = some v ∧ 0 < v ∧ s = prop ++ (qToString (roundTo1 v) ++ "px") := by
  unfold minDecl at h
  split at h
  · split_ifs at h with hv
    · rw [List.mem_singleton] at h
      exact ⟨_, rfl, hv, h⟩
    · exact absurd h (List.not_mem_nil s)
  · exact absurd h (List.not_mem_nil s)

theorem mem_maxDecl {prop : String} {o : Option ℚ} {s : String} (h : s ∈ maxDecl prop o) :
    ∃ v, o = some v ∧ v < 10000 ∧ s = prop ++ (qToString (roundTo1 v) ++ "px") := by
  unfold maxDecl at h
  split at h
  · split_ifs at h with hv
    · rw [List.mem_singleton] at h
      exact ⟨_, rfl, hv, h⟩
    · exact absurd h (List.not_mem_nil s)
  · exact absurd h (List.not_mem_nil s)

/-- Membership in the min/max block splits into the four declarations. -/
theorem mem_minmax (d : NodeData) (s : String) :
    s ∈ minmaxStyles d ↔
      s ∈ minDecl "min-width: " d.minWidth ∨ s ∈ maxDecl "max-width: " d.maxWidth ∨
      s ∈ minDecl "min-height: " d.minHeight ∨ s ∈ maxDecl "max-height: " d.maxHeight := by
  simp [minmaxStyles, List.mem_append, or_assoc]

/-- Counterexample to C8 as stated: `minWidth = 10000` sits at the
"effectively-unset" sentinel threshold, so the claim says it is treated
as no constraint and omitted — but the code's condition for min
constraints is `> 0`, not `< 10000`, and `min-width: 10000px` IS
emitted. -/
theorem min_sentinel_counterexample :
    "min-width: 10000px" ∈ translateAutoLayoutStyles baseEnv
      (Node.mk { baseData with minWidth := some 10000 } none) := by
  have hq : qToString (roundTo1 (10000 : ℚ)) = "10000" := by
    have h1 : roundTo1 (10000 : ℚ) = ((10000 : ℤ) : ℚ) := by
      unfold roundTo1 jsRound
      norm_num
    rw [qToString_intCase _ _ h1]
    decide
  rw [mem_autoLayoutStyles]
  refine Or.inr (Or.inl ?_)
  rw [mem_minmax]
  refine Or.inl ?_
  simp [minDecl, hq]

/-- C8 (amended): a `minWidth`/`minHeight` is emitted (rounded to one
decimal) exactly when present and strictly positive — a zero or negative
min is treated as unset, with no large-sentinel check; a
`maxWidth`/`maxHeight` is emitted exactly when present and strictly
below the sentinel `10000` — at or above it the constraint is dropped. -/
theorem minmax_constraints_amended (env : Env) (d : NodeData) (ch : Option (List Node)) :
    (∀ v, d.minWidth = some v → 0 < v →
      ("min-width: " ++ (qToString (roundTo1 v) ++ "px")) ∈
        translateAutoLayoutStyles env (Node.mk d ch)) ∧
    ((∃ s ∈ translateAutoLayoutStyles env (Node.mk d ch), HasPre "min-width: " s) ↔
      ∃ v, d.minWidth = some v ∧ 0 < v) ∧
    (∀ v, d.maxWidth = some v → v < 10000 →
      ("max-width: " ++ (qToString (roundTo1 v) ++ "px")) ∈
        translateAutoLayoutStyles env (Node.mk d ch)) ∧
    ((∃ s ∈ translateAutoLayoutStyles env (Node.mk d ch), HasPre "max-width: " s) ↔
      ∃ v, d.maxWidth = some v ∧ v < 10000) ∧
    (∀ v, d.minHeight = some v → 0 < v →
      ("min-height: " ++ (qToString (roundTo1 v) ++ "px")) ∈
        translateAutoLayoutStyles env (Node.mk d ch)) ∧
    ((∃ s ∈ translateAutoLayoutStyles env (Node.mk d ch), HasPre "min-height: " s) ↔
      ∃ v, d.minHeight = some v ∧ 0 < v) ∧
    (∀ v, d.maxHeight = some v → v < 10000 →
      ("max-height: " ++ (qToString (roundTo1 v) ++ "px")) ∈
        translateAutoLayoutStyles env (Node.mk d ch)) ∧
    ((∃ s ∈ translateAutoLayoutStyles env (Node.mk d ch), HasPre "max-height: " s) ↔
      ∃ v, d.maxHeight = some v ∧ v < 10000) := by
  have hmemMinW : ∀ v, d.minWidth = some v → 0 < v →
      ("min-width: " ++ (qToString (roundTo1 v) ++ "px")) ∈
        translateAutoLayoutStyles env (Node.mk d ch) := by
    intro v hv hpos
    rw [mem_autoLayoutStyles]
    exact Or.inr (Or.inl ((mem_minmax d _).mpr (Or.inl (by simp [minDecl, hv, hpos]))))
  have hmemMaxW : ∀ v, d.maxWidth = some v → v < 10000 →
      ("max-width: " ++ (qToString (roundTo1 v) ++ "px")) ∈
        translateAutoLayoutStyles env (Node.mk d ch) := by
    intro v hv hlt
    rw [mem_autoLayoutStyles]
    exact Or.inr (Or.inl ((mem_minmax d _).mpr (Or.inr (Or.inl (by simp [maxDecl, hv, hlt])))))
  have hmemMinH : ∀ v, d.minHeight = some v → 0 < v →
      ("min-height: " ++ (qToString (roundTo1 v) ++ "px")) ∈
        translateAutoLayoutStyles env (Node.mk d ch) := by
    intro v hv hpos
    rw [mem_autoLayoutStyles]
    exact Or.inr (Or.inl ((mem_minmax d _).mpr (Or.inr (Or.inr (Or.inl
      (by simp [minDecl, hv, hpos]))))))
  have hmemMaxH : ∀ v, d.maxHeight = some v → v < 10000 →
      ("max-height: " ++ (qToString (roundTo1 v) ++ "px")) ∈
        translateAutoLayoutStyles env (Node.mk d ch) := by
    intro v hv hlt
    rw [mem_autoLayoutStyles]
    exact Or.inr (Or.inl ((mem_minmax d _).mpr (Or.inr (Or.inr (Or.inr
      (by simp [maxDecl, hv, hlt]))))))
  refine ⟨hmemMinW, ⟨?_, ?_⟩, hmemMaxW, ⟨?_, ?_⟩, hmemMinH, ⟨?_, ?_⟩, hmemMaxH, ⟨?_, ?_⟩⟩
  · rintro ⟨s, hsl, hp⟩
    rw [mem_autoLayoutStyles] at hsl
    rcases hsl with h | h | h | h | h | h
    · exact absurd hp ((headed_sizing d).no_pre _ (by decide) s h)
    · rcases (mem_minmax d s).mp h with h | h | h | h
      · obtain ⟨v, hv, hpos, rfl⟩ := mem_minDecl h
        exact ⟨v, hv, hpos⟩
      all_goals {
        first
        | (obtain ⟨v, hv, hlt, rfl⟩ := mem_maxDecl h
           exact absurd hp (not_hasPre_of_incompat _
             (hasPre_head _ (isPre_refl _)) (by decide) (by decide)))
        | (obtain ⟨v, hv, hlt, rfl⟩ := mem_minDecl h
           exact absurd hp (not_hasPre_of_incompat _
             (hasPre_head _ (isPre_refl _)) (by decide) (by decide))) }
    · exact absurd hp ((headed_fill env d).no_pre _ (by decide) s h)
    · exact absurd hp ((headed_bgFallback d).no_pre _ (by decide) s h)
    · exact absurd hp ((headed_layout d ch).no_pre _ (by decide) s h)
    · exact absurd hp ((headed_effects d).no_pre _ (by decide) s h)
  · rintro ⟨v, hv, hpos⟩
    exact ⟨_, hmemMinW v hv hpos, hasPre_head _ (isPre_refl _)⟩
  · rintro ⟨s, hsl, hp⟩
    rw [mem_autoLayoutStyles] at hsl
    rcases hsl with h | h | h | h | h | h
    · exact absurd hp ((headed_sizing d).no_pre _ (by decide) s h)
    · rcases (mem_minmax d s).mp h with h | h | h | h
      case inr.inl =>
        obtain ⟨v, hv, hlt, rfl⟩ := mem_maxDecl h
        exact ⟨v, hv, hlt⟩
      all_goals {
        first
        | (obtain ⟨v, hv, hlt, rfl⟩ := mem_maxDecl h
           exact absurd hp (not_hasPre_of_incompat _
             (hasPre_head _ (isPre_refl _)) (by decide) (by decide)))
        | (obtain ⟨v, hv, hlt, rfl⟩ := mem_minDecl h
           exact absurd hp (not_hasPre_of_incompat _
             (hasPre_head _ (isPre_refl _)) (by decide) (by decide))) }
    · exact absurd hp ((headed_fill env d).no_pre _ (by decide) s h)
    · exact absurd hp ((headed_bgFallback d).no_pre _ (by decide) s h)
    · exact absurd hp ((headed_layout d ch).no_pre _ (by decide) s h)
    · exact absurd hp ((headed_effects d).no_pre _ (by decide) s h)
  · rintro ⟨v, hv, hlt⟩
    exact ⟨_, hmemMaxW v hv hlt, hasPre_head _ (isPre_refl _)⟩
  · rintro ⟨s, hsl, hp⟩
    rw [mem_autoLayoutStyles] at hsl
    rcases hsl with h | h | h | h | h | h
    · exact absurd hp ((headed_sizing d).no_pre _ (by decide) s h)
    · rcases (mem_minmax d s).mp h with h | h | h | h
      case inr.inr.inl =>
        obtain ⟨v, hv, hpos, rfl⟩ := mem_minDecl h
        exact ⟨v, hv, hpos⟩
      all_goals {
        first
        | (obtain ⟨v, hv, hlt, rfl⟩ := mem_maxDecl h
           exact absurd hp (not_hasPre_of_incompat _
             (hasPre_head _ (isPre_refl _)) (by decide) (by decide)))
        | (obtain ⟨v, hv, hlt, rfl⟩ := mem_minDecl h
           exact absurd hp (not_hasPre_of_incompat _
             (hasPre_head _ (isPre_refl _)) (by decide) (by decide))) }
    · exact absurd hp ((headed_fill env d).no_pre _ (by decide) s h)
    · exact absurd hp ((headed_bgFallback d).no_pre _ (by decide) s h)
    · exact absurd hp ((headed_layout d ch).no_pre _ (by decide) s h)
    · exact absurd hp ((headed_effects d).no_pre _ (by decide) s h)
  · rintro ⟨v, hv, hpos⟩
    exact ⟨_, hmemMinH v hv hpos, hasPre_head _ (isPre_refl _)⟩
  · rintro ⟨s, hsl, hp⟩
    rw [mem_autoLayoutStyles] at hsl
    rcases hsl with h | h | h | h | h | h
    · exact absurd hp ((headed_sizing d).no_pre _ (by decide) s h)
    · rcases (mem_minmax d s).mp h with h | h | h | h
      case inr.inr.inr =>
        obtain ⟨v, hv, hlt, rfl⟩ := mem_maxDecl h
        exact ⟨v, hv, hlt⟩
      all_goals {
        first
        | (obtain ⟨v, hv, hlt, rfl⟩ := mem_maxDecl h
           exact absurd hp (not_hasPre_of_incompat _
             (hasPre_head _ (isPre_refl _)) (by decide) (by decide)))
        | (obtain ⟨v, hv, hlt, rfl⟩ := mem_minDecl h
           exact absurd hp (not_hasPre_of_incompat _
             (hasPre_head _ (isPre_refl _)) (by decide) (by decide))) }
    · exact absurd hp ((headed_fill env d).no_pre _ (by decide) s h)
    · exact absurd hp ((headed_bgFallback d).no_pre _ (by decide) s h)
    · exact absurd hp ((headed_layout d ch).no_pre _ (by decide) s h)
    · exact absurd hp ((headed_effects d).no_pre _ (by decide) s h)
  · rintro ⟨v, hv, hlt⟩
    exact ⟨_, hmemMaxH v hv hlt, hasPre_head _ (isPre_refl _)⟩

/-- Witness for the amended C8 at `minWidth = 5`, `maxWidth = 10000`:
the min is emitted, and no `max-width` declaration exists. -/
theorem minmax_constraints_amended_witness :
    ("min-width: " ++ (qToString (roundTo1 5) ++ "px")) ∈
      translateAutoLayoutStyles baseEnv
        (Node.mk { baseData with minWidth := some 5, maxWidth := some 10000 } none) ∧
    ¬ (∃ s ∈ translateAutoLayoutStyles baseEnv
        (Node.mk { baseData with minWidth := some 5, maxWidth := some 10000 } none),
        HasPre "max-width: " s) := by
  constructor
  · exact (minmax_constraints_amended baseEnv
      { baseData with minWidth := some 5, maxWidth := some 10000 } none).1 5 rfl (by norm_num)
  · intro hex
    obtain ⟨v, hv, hlt⟩ := (minmax_constraints_amended baseEnv
      { baseData with minWidth := some 5, maxWidth := some 10000 } none).2.2.2.1.mp hex
    have : v = 10000 := by
      have : some v = some (10000 : ℚ) := by rw [← hv]
      exact Option.some_injective _ this
    subst this
    exact absurd hlt (by norm_num)

/-! ## Claim C2 — one sizing outcome per axis -/

theorem widthSizing_flex_mem (szH : String) (bbox : Option BBox)
    (h : "flex: 1" ∈ widthSizing szH bbox) : szH = "FILL" := by
  unfold widthSizing at h
  split_ifs at h with h1 h2
  · exact h1
  · exact absurd h (List.not_mem_nil _)
  · split at h
    · rw [List.mem_singleton] at h
      exact absurd h.symm (ne_of_hasPre _ (hasPre_head _ (isPre_refl _)) (by decide))
    · exact absurd h (List.not_mem_nil _)

theorem heightSizing_flexgrow_mem (szV : String) (bbox : Option BBox)
    (h : "flex-grow: 1" ∈ heightSizing szV bbox) : szV = "FILL" := by
  unfold heightSizing at h
  split_ifs at h with h1 h2
  · exact h1
  · exact absurd h (List.not_mem_nil _)
  · split at h
    · rw [List.mem_singleton] at h
      exact absurd h.symm (ne_of_hasPre _ (hasPre_head _ (isPre_refl _)) (by decide))
    · exact absurd h (List.not_mem_nil _)

/-- C2: per axis exactly one sizing outcome.  `layoutSizingHorizontal =
'FILL'` emits `flex: 1` and `align-self: stretch` and no width
declaration; `layoutSizingVertical = 'FILL'` emits `flex-grow: 1` and no
height declaration; `'HUG'` emits no dimension declaration for its axis;
otherwise (`FIXED` or the field absent) the bounding-box dimension is
emitted rounded to one decimal half-up — `123.45` renders as `123.5` —
and the flex-fill declaration is absent; a fixed dimension and a
flex-fill declaration never coexist for the same axis. -/
theorem sizing_per_axis (env : Env) (d : NodeData) (ch : Option (List Node)) :
    (d.layoutSizingHorizontal = some "FILL" →
      "flex: 1" ∈ translateAutoLayoutStyles env (Node.mk d ch) ∧
      "align-self: stretch" ∈ translateAutoLayoutStyles env (Node.mk d ch) ∧
      ∀ s ∈ translateAutoLayoutStyles env (Node.mk d ch), ¬ HasPre "width: " s) ∧
    (d.layoutSizingHorizontal = some "HUG" →
      ∀ s ∈ translateAutoLayoutStyles env (Node.mk d ch), ¬ HasPre "width: " s) ∧
    (∀ bb, sizingOr d.layoutSizingHorizontal ≠ "FILL" →
      sizingOr d.layoutSizingHorizontal ≠ "HUG" → d.absoluteBoundingBox = some bb →
      ("width: " ++ (qToString (roundTo1 bb.width) ++ "px")) ∈
        translateAutoLayoutStyles env (Node.mk d ch) ∧
      "flex: 1" ∉ translateAutoLayoutStyles env (Node.mk d ch)) ∧
    (d.layoutSizingVertical = some "FILL" →
      "flex-grow: 1" ∈ translateAutoLayoutStyles env (Node.mk d ch) ∧
      ∀ s ∈ translateAutoLayoutStyles env (Node.mk d ch), ¬ HasPre "height: " s) ∧
    (d.layoutSizingVertical = some "HUG" →
      ∀ s ∈ translateAutoLayoutStyles env (Node.mk d ch), ¬ HasPre "height: " s) ∧
    (∀ bb, sizingOr d.layoutSizingVertical ≠ "FILL" →
      sizingOr d.layoutSizingVertical ≠ "HUG" → d.absoluteBoundingBox = some bb →
      ("height: " ++ (qToString (roundTo1 bb.height) ++ "px")) ∈
        translateAutoLayoutStyles env (Node.mk d ch) ∧
      "flex-grow: 1" ∉ translateAutoLayoutStyles env (Node.mk d ch)) ∧
    (¬ ("flex: 1" ∈ translateAutoLayoutStyles env (Node.mk d ch) ∧
        ∃ s ∈ translateAutoLayoutStyles env (Node.mk d ch), HasPre "width: " s)) ∧
    (¬ ("flex-grow: 1" ∈ translateAutoLayoutStyles env (Node.mk d ch) ∧
        ∃ s ∈ translateAutoLayoutStyles env (Node.mk d ch), HasPre "height: " s)) ∧
    qToString (roundTo1 ((12345 : ℚ) / 100)) = "123.5" := by
  have keyW : ∀ s, s ∈ translateAutoLayoutStyles env (Node.mk d ch) → HasPre "width: " s →
      s ∈ widthSizing (sizingOr d.layoutSizingHorizontal) d.absoluteBoundingBox := by
    intro s hs hp
    rw [mem_autoLayoutStyles] at hs
    rcases hs with h | h | h | h | h | h
    · rcases List.mem_append.mp (by simpa [sizingStyles] using h) with h' | h'
      · exact h'
      · exact absurd hp ((headed_heightSizing _ _).no_pre _ (by decide) s h')
    · exact absurd hp ((headed_minmax d).no_pre _ (by decide) s h)
    · exact absurd hp ((headed_fill env d).no_pre _ (by decide) s h)
    · exact absurd hp ((headed_bgFallback d).no_pre _ (by decide) s h)
    · exact absurd hp ((headed_layout d ch).no_pre _ (by decide) s h)
    · exact absurd hp ((headed_effects d).no_pre _ (by decide) s h)
  have keyH : ∀ s, s ∈ translateAutoLayoutStyles env (Node.mk d ch) → HasPre "height: " s →
      s ∈ heightSizing (sizingOr d.layoutSizingVertical) d.absoluteBoundingBox := by
    intro s hs hp
    rw [mem_autoLayoutStyles] at hs
    rcases hs with h | h | h | h | h | h
    · rcases List.mem_append.mp (by simpa [sizingStyles] using h) with h' | h'
      · exact absurd hp ((headed_widthSizing _ _).no_pre _ (by decide) s h')
      · exact h'
    · exact absurd hp ((headed_minmax d).no_pre _ (by decide) s h)
    · exact absurd hp ((headed_fill env d).no_pre _ (by decide) s h)
    · exact absurd hp ((headed_bgFallback d).no_pre _ (by decide) s h)
    · exact absurd hp ((headed_layout d ch).no_pre _ (by decide) s h)
    · exact absurd hp ((headed_effects d).no_pre _ (by decide) s h)
  have keyF : "flex: 1" ∈ translateAutoLayoutStyles env (Node.mk d ch) →
      sizingOr d.layoutSizingHorizontal = "FILL" := by
    intro hm
    rw [mem_autoLayoutStyles] at hm
    rcases hm with h | h | h | h | h | h
    · rcases List.mem_append.mp (by simpa [sizingStyles] using h) with h' | h'
      · exact widthSizing_flex_mem _ _ h'
      · exact absurd h' ((headed_heightSizing _ _).not_mem _ (by decide))
    · exact absurd h ((headed_minmax d).not_mem _ (by decide))
    · exact absurd h ((headed_fill env d).not_mem _ (by decide))
    · exact absurd h ((headed_bgFallback d).not_mem _ (by decide))
    · exact absurd h ((headed_layout d ch).not_mem _ (by decide))
    · exact absurd h ((headed_effects d).not_mem _ (by decide))
  have keyG : "flex-grow: 1" ∈ translateAutoLayoutStyles env (Node.mk d ch) →
      sizingOr d.layoutSizingVertical = "FILL" := by
    intro hm
    rw [mem_autoLayoutStyles] at hm
    rcases hm with h | h | h | h | h | h
    · rcases List.mem_append.mp (by simpa [sizingStyles] using h) with h' | h'
      · exact absurd h' ((headed_widthSizing _ _).not_mem _ (by decide))
      · exact heightSizing_flexgrow_mem _ _ h'
    · exact absurd h ((headed_minmax d).not_mem _ (by decide))
    · exact absurd h ((headed_fill env d).not_mem _ (by decide))
    · exact absurd h ((headed_bgFallback d).not_mem _ (by decide))
    · exact absurd h ((headed_layout d ch).not_mem _ (by decide))
    · exact absurd h ((headed_effects d).not_mem _ (by decide))
  have hq : qToString (roundTo1 ((12345 : ℚ) / 100)) = "123.5" := by
    have h1 : roundTo1 ((12345 : ℚ) / 100) = ((1235 : ℤ) : ℚ) / 10 := by
      unfold roundTo1 jsRound
      norm_num
    rw [h1, qToString_tenthCase 1235 (by decide)]
    decide
  refine ⟨?_, ?_, ?_, ?_, ?_, ?_, ?_, ?_, hq⟩
  · intro hH
    have hsz : sizingOr d.layoutSizingHorizontal = "FILL" := by simp [sizingOr, hH]
    refine ⟨?_, ?_, ?_⟩
    · rw [mem_autoLayoutStyles]
      exact Or.inl (by simp [sizingStyles, hsz, widthSizing])
    · rw [mem_autoLayoutStyles]
      exact Or.inl (by simp [sizingStyles, hsz, widthSizing])
    · intro s hs hp
      have h' := keyW s hs hp
      rw [hsz] at h'
      unfold widthSizing at h'
      rw [if_pos rfl] at h'
      fin_cases h' <;> exact absurd hp (by decide)
  · intro hH
    intro s hs hp
    have h' := keyW s hs hp
    have hsz : sizingOr d.layoutSizingHorizontal = "HUG" := by simp [sizingOr, hH]
    rw [hsz] at h'
    unfold widthSizing at h'
    rw [if_neg (by decide), if_pos rfl] at h'
    exact absurd h' (List.not_mem_nil s)
  · intro bb h1 h2 hbb
    constructor
    · rw [mem_autoLayoutStyles]
      refine Or.inl ?_
      unfold sizingStyles widthSizing
      rw [hbb]
      simp [h1, h2]
    · intro hm
      exact h1 (keyF hm)
  · intro hV
    have hsz : sizingOr d.layoutSizingVertical = "FILL" := by simp [sizingOr, hV]
    refine ⟨?_, ?_⟩
    · rw [mem_autoLayoutStyles]
      exact Or.inl (by simp [sizingStyles, hsz, heightSizing])
    · intro s hs hp
      have h' := keyH s hs hp
      rw [hsz] at h'
      unfold heightSizing at h'
      rw [if_pos rfl] at h'
      fin_cases h' <;> exact absurd hp (by decide)
  · intro hV
    intro s hs hp
    have h' := keyH s hs hp
    have hsz : sizingOr d.layoutSizingVertical = "HUG" := by simp [sizingOr, hV]
    rw [hsz] at h'
    unfold heightSizing at h'
    rw [if_neg (by decide), if_pos rfl] at h'
    exact absurd h' (List.not_mem_nil s)
  · intro bb h1 h2 hbb
    constructor
    · rw [mem_autoLayoutStyles]
      refine Or.inl ?_
      unfold sizingStyles heightSizing
      rw [hbb]
      simp [h1, h2]
    · intro hm
      exact h1 (keyG hm)
  · rintro ⟨hflex, s, hs, hp⟩
    have hsz := keyF hflex
    have h' := keyW s hs hp
    rw [hsz] at h'
    unfold widthSizing at h'
    rw [if_pos rfl] at h'
    fin_cases h' <;> exact absurd hp (by decide)
  · rintro ⟨hflex, s, hs, hp⟩
    have hsz := keyG hflex
    have h' := keyH s hs hp
    rw [hsz] at h'
    unfold heightSizing at h'
    rw [if_pos rfl] at h'
    fin_cases h' <;> exact absurd hp (by decide)

/-- Witness for C2: a FILL-horizontal node gets `flex: 1`, and a
FIXED node with width `123.45` gets `width: 123.5px`. -/
theorem sizing_per_axis_witness :
    "flex: 1" ∈ translateAutoLayoutStyles baseEnv
      (Node.mk { baseData with layoutSizingHorizontal := some "FILL" } none) ∧
    ("width: " ++ (qToString (roundTo1 ((12345 : ℚ) / 100)) ++ "px")) ∈
      translateAutoLayoutStyles baseEnv
        (Node.mk { baseData with absoluteBoundingBox := some ⟨12345 / 100, 20⟩ } none) :=
  ⟨((sizing_per_axis baseEnv
      { baseData with layoutSizingHorizontal := some "FILL" } none).1 rfl).1,
   ((sizing_per_axis baseEnv
      { baseData with absoluteBoundingBox := some ⟨12345 / 100, 20⟩ } none).2.2.1
      ⟨12345 / 100, 20⟩ (by decide) (by decide) rfl).1⟩

end FigmaC
